import Mathlib

/-!
Verification development for the nwn_parser combat-log engine.

The Rust sources embedded here (shallowly) are:
  src/parsing/line_parser.rs   - ParsedLine, is_long_duration_spell, get_spell_damage_type
  src/parsing/processor.rs     - process_parsed_line (encounter segmentation, pending-action
                                 tracking, damage attribution, stats accumulation)
  src/models/stats.rs          - CombatantStats
  src/models/encounter.rs      - Encounter
  src/models/context.rs        - SpellContext, PendingAttack, PendingSpell, LongDurationSpell
  src/gui/app.rs               - aggregate_stats (the commutative-merge aggregator)

Representation choices:
  * `HashMap<String, u32>` and its nested forms are embedded as association lists
    (`DMap`, `DMap2`, `DMap3`).  `map.entry(k).or_default()` followed by a mutation is
    `modifyEntry`; iteration order of a breakdown is the list order (all uses fold
    commutative per-key updates, so no observable behavior depends on the order).
  * `u64`/`u32` counters are embedded as `Nat` (no claim concerns overflow).
  * `HashMap<u64, Encounter>` / `HashMap<String, CombatantStats>` (which are only ever
    read pointwise, never summed) are embedded as total functions into `Option Encounter`
    resp. `CombatantStats` with `or_default` as function update.
  * The player-registry and buff-tracker collaborators (spec paragraph 6: external to the
    core) are not modeled; the administrative ParsedLine variants that only talk to them
    are embedded as no-ops on the combat state, exactly as the early returns in
    process_parsed_line leave the combat state untouched.
-/

/-- Association-list embedding of Rust `HashMap<String, u32>`. -/
abbrev DMap : Type := List (String × Nat)

/-- Association-list embedding of Rust `HashMap<String, HashMap<String, u32>>`. -/
abbrev DMap2 : Type := List (String × DMap)

/-- Association-list embedding of `HashMap<String, HashMap<String, HashMap<String, u32>>>`. -/
abbrev DMap3 : Type := List (String × DMap2)

/-- Generic `map.entry(k).or_default()` followed by an in-place modification `f`:
the first entry with key `k` is replaced by `f` of its value; a missing key is
appended with `f d` (where `d` is the `or_default` default value). -/
def modifyEntry {α : Type} (d : α) (f : α → α) : List (String × α) → String → List (String × α)
  | [], k => [(k, f d)]
  | (k', v') :: t, k => if k' = k then (k', f v') :: t else (k', v') :: modifyEntry d f t k

/-- Rust `*map.entry(k).or_default() += v` on a `HashMap<String, u32>`. -/
def bump (m : DMap) (k : String) (v : Nat) : DMap :=
  modifyEntry 0 (fun x => x + v) m k

/-- Rust `*m.entry(k1).or_default().entry(k2).or_default() += v`. -/
def bumpIn2 (m : DMap2) (k1 k2 : String) (v : Nat) : DMap2 :=
  modifyEntry [] (fun inner => bump inner k2 v) m k1

/-- Rust `*m.entry(k1).or_default().entry(k2).or_default().entry(k3).or_default() += v`. -/
def bumpIn3 (m : DMap3) (k1 k2 k3 : String) (v : Nat) : DMap3 :=
  modifyEntry [] (fun inner => bumpIn2 inner k2 k3 v) m k1

/-- First-match lookup with a default, the reading semantics of a Rust `HashMap`
(association lists built by `modifyEntry` keep keys unique). -/
def lookupD {α : Type} (d : α) : List (String × α) → String → α
  | [], _ => d
  | (k', v') :: t, k => if k' = k then v' else lookupD d t k

/-- Value of a `DMap` at a key, `0` when absent. -/
def look1 (m : DMap) (k : String) : Nat := lookupD 0 m k

/-- Value of a `DMap2` at a key path, `0` when absent. -/
def look2 (m : DMap2) (k1 k2 : String) : Nat := look1 (lookupD [] m k1) k2

/-- Value of a `DMap3` at a key path, `0` when absent. -/
def look3 (m : DMap3) (k1 k2 k3 : String) : Nat := look2 (lookupD [] m k1) k2 k3

/-- The `map.contains_key(k)` test on a `DMap`. -/
def containsKey (m : DMap) (k : String) : Bool :=
  match m with
  | [] => false
  | (k', _) :: t => k' == k || containsKey t k

/-- Sum of the values of a `DMap` (`map.values().sum()`). -/
def sumValues (m : DMap) : Nat :=
  match m with
  | [] => 0
  | (_, v) :: t => v + sumValues t

/-- Keys of an association list. -/
def keysOf {α : Type} (m : List (String × α)) : List String := m.map Prod.fst

theorem keysOf_nil {α : Type} : keysOf ([] : List (String × α)) = [] := rfl

theorem keysOf_cons {α : Type} (p : String × α) (t : List (String × α)) :
    keysOf (p :: t) = p.1 :: keysOf t := rfl

/-- Key uniqueness, the intrinsic shape of every Rust `HashMap`. -/
def wf1 (m : DMap) : Prop := (keysOf m).Nodup

/-- Key uniqueness at both levels of a `DMap2`. -/
def wf2 (m : DMap2) : Prop := (keysOf m).Nodup ∧ ∀ p ∈ m, wf1 p.2

/-- Key uniqueness at all three levels of a `DMap3`. -/
def wf3 (m : DMap3) : Prop := (keysOf m).Nodup ∧ ∀ p ∈ m, wf2 p.2

instance : DecidablePred wf1 := fun m => by unfold wf1; infer_instance
instance : DecidablePred wf2 := fun m => by unfold wf2 wf1; infer_instance
instance : DecidablePred wf3 := fun m => by unfold wf3 wf2 wf1; infer_instance

/-- The aggregator loop `for (k, v) in source { *target.entry(k).or_default() += v }`
of app.rs::aggregate_stats on a one-level map. -/
def mergeInto (t s : DMap) : DMap :=
  s.foldl (fun acc kv => bump acc kv.1 kv.2) t

/-- The aggregator loop on a two-level map: each source inner map is folded into
`target.entry(k).or_default()` entry by entry. -/
def merge2 (t s : DMap2) : DMap2 :=
  s.foldl (fun acc kv => modifyEntry [] (fun inner => mergeInto inner kv.2) acc kv.1) t

/-- The aggregator loop on a three-level map. -/
def merge3 (t s : DMap3) : DMap3 :=
  s.foldl (fun acc kv => modifyEntry [] (fun inner => merge2 inner kv.2) acc kv.1) t

theorem lookupD_modifyEntry_self {α : Type} (d : α) (f : α → α) (m : List (String × α))
    (k : String) : lookupD d (modifyEntry d f m k) k = f (lookupD d m k) := by
  induction m with
  | nil => simp [modifyEntry, lookupD]
  | cons p t ih =>
    obtain ⟨k', v'⟩ := p
    simp only [modifyEntry]
    rcases eq_or_ne k' k with hk | hk
    · subst hk; simp [lookupD]
    · rw [if_neg hk]
      simp only [lookupD, if_neg hk, ih]

theorem lookupD_modifyEntry_other {α : Type} (d : α) (f : α → α) (m : List (String × α))
    (k j : String) (hjk : j ≠ k) :
    lookupD d (modifyEntry d f m k) j = lookupD d m j := by
  induction m with
  | nil =>
    simp only [modifyEntry, lookupD]
    rw [if_neg (fun h : k = j => hjk h.symm)]
  | cons p t ih =>
    obtain ⟨k', v'⟩ := p
    simp only [modifyEntry]
    rcases eq_or_ne k' k with hk | hk
    · subst hk
      rw [if_pos rfl]
      simp only [lookupD]
      rw [if_neg (fun h : k' = j => hjk h.symm), if_neg (fun h : k' = j => hjk h.symm)]
    · rw [if_neg hk]
      simp only [lookupD]
      rcases eq_or_ne k' j with hj | hj
      · simp [hj]
      · simp [hj, ih]

theorem look1_bump (m : DMap) (k j : String) (v : Nat) :
    look1 (bump m k v) j = look1 m j + if j = k then v else 0 := by
  unfold look1 bump
  rcases eq_or_ne j k with h | h
  · subst h; rw [lookupD_modifyEntry_self]; simp
  · rw [lookupD_modifyEntry_other _ _ _ _ _ h, if_neg h]; omega

theorem sumValues_bump (m : DMap) (k : String) (v : Nat) :
    sumValues (bump m k v) = sumValues m + v := by
  unfold bump
  induction m with
  | nil => simp [modifyEntry, sumValues]
  | cons p t ih =>
    obtain ⟨k', v'⟩ := p
    simp only [modifyEntry]
    rcases eq_or_ne k' k with hk | hk
    · rw [if_pos hk]; simp only [sumValues]; omega
    · rw [if_neg hk]; simp only [sumValues, ih]; omega

theorem sumValues_mergeInto (t s : DMap) :
    sumValues (mergeInto t s) = sumValues t + sumValues s := by
  unfold mergeInto
  induction s generalizing t with
  | nil => simp [sumValues]
  | cons p s' ih =>
    obtain ⟨k, v⟩ := p
    simp only [List.foldl_cons]
    rw [ih, sumValues_bump]
    simp only [sumValues]; omega

theorem lookupD_not_mem {α : Type} (d : α) (m : List (String × α)) (k : String)
    (h : k ∉ keysOf m) : lookupD d m k = d := by
  induction m with
  | nil => rfl
  | cons p t ih =>
    obtain ⟨k', v'⟩ := p
    rw [keysOf_cons, List.mem_cons] at h
    push_neg at h
    simp only [lookupD, if_neg (fun hh : k' = k => h.1 hh.symm)]
    exact ih h.2

theorem keysOf_modifyEntry {α : Type} (d : α) (f : α → α) (m : List (String × α)) (k : String) :
    keysOf (modifyEntry d f m k) = if k ∈ keysOf m then keysOf m else keysOf m ++ [k] := by
  induction m with
  | nil => simp [modifyEntry, keysOf]
  | cons p t ih =>
    obtain ⟨k', v'⟩ := p
    simp only [modifyEntry]
    rcases eq_or_ne k' k with hk | hk
    · subst hk; simp [keysOf_cons]
    · rw [if_neg hk, keysOf_cons, keysOf_cons, ih]
      have hne : k ≠ k' := fun h => hk h.symm
      rcases Decidable.em (k ∈ keysOf t) with hmem | hmem
      · simp [hmem, hne]
      · simp [hmem, hne]

theorem wf1_bump (m : DMap) (k : String) (v : Nat) (h : wf1 m) : wf1 (bump m k v) := by
  unfold wf1 bump at *
  rw [keysOf_modifyEntry]
  rcases Decidable.em (k ∈ keysOf m) with hmem | hmem
  · simpa [hmem]
  · simp [hmem, List.nodup_append, h]

theorem look1_mergeInto (t s : DMap) (hs : wf1 s) (j : String) :
    look1 (mergeInto t s) j = look1 t j + look1 s j := by
  unfold mergeInto
  induction s generalizing t with
  | nil => simp [look1, lookupD]
  | cons p s' ih =>
    obtain ⟨k, v⟩ := p
    have hcons := List.nodup_cons.mp (by simpa [wf1, keysOf_cons] using hs)
    have hs' : wf1 s' := hcons.2
    have hknot : k ∉ keysOf s' := hcons.1
    simp only [List.foldl_cons]
    have := ih (bump t k v) hs'
    unfold mergeInto at this
    rw [this, look1_bump]
    rcases eq_or_ne j k with hj | hj
    · subst hj
      have hz : lookupD 0 s' j = 0 := lookupD_not_mem 0 s' j hknot
      simp only [look1, lookupD, if_pos rfl, hz]
      omega
    · have hne : k ≠ j := fun h => hj h.symm
      simp only [look1, lookupD, if_neg hne, if_neg hj]
      omega

theorem wf1_mergeInto (t s : DMap) (ht : wf1 t) : wf1 (mergeInto t s) := by
  unfold mergeInto
  induction s generalizing t with
  | nil => simpa
  | cons p s' ih => exact ih (bump t p.1 p.2) (wf1_bump t p.1 p.2 ht)

theorem mergeInto_nil (t : DMap) : mergeInto t [] = t := rfl

theorem nodup_keys_modifyEntry {α : Type} (d : α) (f : α → α) (m : List (String × α))
    (k : String) (h : (keysOf m).Nodup) : (keysOf (modifyEntry d f m k)).Nodup := by
  rw [keysOf_modifyEntry]
  rcases Decidable.em (k ∈ keysOf m) with hmem | hmem
  · simpa [hmem]
  · simp [hmem, List.nodup_append, h]

theorem mem_modifyEntry {α : Type} (d : α) (f : α → α) (m : List (String × α)) (k : String)
    (p : String × α) (hp : p ∈ modifyEntry d f m k) :
    p ∈ m ∨ ∃ v', p = (k, f v') ∧ (v' = d ∨ (k, v') ∈ m) := by
  induction m with
  | nil =>
    simp only [modifyEntry, List.mem_singleton] at hp
    exact Or.inr ⟨d, hp, Or.inl rfl⟩
  | cons q t ih =>
    obtain ⟨k', v'⟩ := q
    simp only [modifyEntry] at hp
    rcases eq_or_ne k' k with hk | hk
    · subst hk
      rw [if_pos rfl] at hp
      rcases List.mem_cons.mp hp with h1 | h1
      · exact Or.inr ⟨v', h1, Or.inr (List.mem_cons_self _ _)⟩
      · exact Or.inl (List.mem_cons_of_mem _ h1)
    · rw [if_neg hk] at hp
      rcases List.mem_cons.mp hp with h1 | h1
      · exact Or.inl (h1 ▸ List.mem_cons_self _ _)
      · rcases ih h1 with h2 | ⟨w, hw, hmem⟩
        · exact Or.inl (List.mem_cons_of_mem _ h2)
        · refine Or.inr ⟨w, hw, ?_⟩
          rcases hmem with h3 | h3
          · exact Or.inl h3
          · exact Or.inr (List.mem_cons_of_mem _ h3)

theorem wf1_nil : wf1 [] := by simp [wf1, keysOf]

theorem wf2_modifyMerge (m : DMap2) (k : String) (v : DMap) (hm : wf2 m) :
    wf2 (modifyEntry [] (fun inner => mergeInto inner v) m k) := by
  refine ⟨nodup_keys_modifyEntry _ _ _ _ hm.1, ?_⟩
  intro p hp
  rcases mem_modifyEntry _ _ _ _ _ hp with h1 | ⟨w, hw, hmem⟩
  · exact hm.2 p h1
  · subst hw
    rcases hmem with h2 | h2
    · subst h2; exact wf1_mergeInto _ _ wf1_nil
    · exact wf1_mergeInto _ _ (hm.2 _ h2)

theorem look2_modifyMerge (m : DMap2) (k : String) (v : DMap) (hv : wf1 v) (j1 j2 : String) :
    look2 (modifyEntry [] (fun inner => mergeInto inner v) m k) j1 j2 =
      look2 m j1 j2 + if j1 = k then look1 v j2 else 0 := by
  unfold look2
  rcases eq_or_ne j1 k with hj | hj
  · subst hj
    rw [lookupD_modifyEntry_self, look1_mergeInto _ _ hv]
    simp
  · rw [lookupD_modifyEntry_other _ _ _ _ _ hj, if_neg hj]
    omega

theorem look2_merge2 (t s : DMap2) (hs : wf2 s) (j1 j2 : String) :
    look2 (merge2 t s) j1 j2 = look2 t j1 j2 + look2 s j1 j2 := by
  unfold merge2
  induction s generalizing t with
  | nil => simp [look2, look1, lookupD]
  | cons p s' ih =>
    obtain ⟨k, v⟩ := p
    have hnd := List.nodup_cons.mp (by simpa [keysOf_cons] using hs.1)
    have hs' : wf2 s' := ⟨hnd.2, fun q hq => hs.2 q (List.mem_cons_of_mem _ hq)⟩
    have hv : wf1 v := hs.2 (k, v) (List.mem_cons_self _ _)
    simp only [List.foldl_cons]
    have := ih (modifyEntry [] (fun inner => mergeInto inner v) t k) hs'
    unfold merge2 at this
    rw [this, look2_modifyMerge _ _ _ hv]
    rcases eq_or_ne j1 k with hj | hj
    · subst hj
      have hz : lookupD [] s' j1 = ([] : DMap) := lookupD_not_mem [] s' j1 hnd.1
      simp [look2, look1, lookupD, hz]
      try omega
    · have hne : k ≠ j1 := fun h => hj h.symm
      simp only [look2, lookupD, if_neg hne, if_neg hj]
      omega

theorem wf2_merge2 (t s : DMap2) (ht : wf2 t) : wf2 (merge2 t s) := by
  unfold merge2
  induction s generalizing t with
  | nil => simpa
  | cons p s' ih => exact ih _ (wf2_modifyMerge t p.1 p.2 ht)

theorem wf2_nil : wf2 [] := ⟨by simp [keysOf], by simp⟩

theorem wf3_modifyMerge (m : DMap3) (k : String) (v : DMap2) (hm : wf3 m) :
    wf3 (modifyEntry [] (fun inner => merge2 inner v) m k) := by
  refine ⟨nodup_keys_modifyEntry _ _ _ _ hm.1, ?_⟩
  intro p hp
  rcases mem_modifyEntry _ _ _ _ _ hp with h1 | ⟨w, hw, hmem⟩
  · exact hm.2 p h1
  · subst hw
    rcases hmem with h2 | h2
    · subst h2; exact wf2_merge2 _ _ wf2_nil
    · exact wf2_merge2 _ _ (hm.2 _ h2)

theorem look3_modifyMerge (m : DMap3) (k : String) (v : DMap2) (hv : wf2 v) (j1 j2 j3 : String) :
    look3 (modifyEntry [] (fun inner => merge2 inner v) m k) j1 j2 j3 =
      look3 m j1 j2 j3 + if j1 = k then look2 v j2 j3 else 0 := by
  unfold look3
  rcases eq_or_ne j1 k with hj | hj
  · subst hj
    rw [lookupD_modifyEntry_self, look2_merge2 _ _ hv]
    simp
  · rw [lookupD_modifyEntry_other _ _ _ _ _ hj, if_neg hj]
    omega

theorem look3_merge3 (t s : DMap3) (hs : wf3 s) (j1 j2 j3 : String) :
    look3 (merge3 t s) j1 j2 j3 = look3 t j1 j2 j3 + look3 s j1 j2 j3 := by
  unfold merge3
  induction s generalizing t with
  | nil => simp [look3, look2, look1, lookupD]
  | cons p s' ih =>
    obtain ⟨k, v⟩ := p
    have hnd := List.nodup_cons.mp (by simpa [keysOf_cons] using hs.1)
    have hs' : wf3 s' := ⟨hnd.2, fun q hq => hs.2 q (List.mem_cons_of_mem _ hq)⟩
    have hv : wf2 v := hs.2 (k, v) (List.mem_cons_self _ _)
    simp only [List.foldl_cons]
    have := ih (modifyEntry [] (fun inner => merge2 inner v) t k) hs'
    unfold merge3 at this
    rw [this, look3_modifyMerge _ _ _ hv]
    rcases eq_or_ne j1 k with hj | hj
    · subst hj
      have hz : lookupD [] s' j1 = ([] : DMap2) := lookupD_not_mem [] s' j1 hnd.1
      simp [look3, look2, look1, lookupD, hz]
      try omega
    · have hne : k ≠ j1 := fun h => hj h.symm
      simp only [look3, look2, lookupD, if_neg hne, if_neg hj]
      omega

theorem wf3_merge3 (t s : DMap3) (ht : wf3 t) : wf3 (merge3 t s) := by
  unfold merge3
  induction s generalizing t with
  | nil => simpa
  | cons p s' ih => exact ih _ (wf3_modifyMerge t p.1 p.2 ht)

/-- The first_action_time merge of aggregate_stats:
`target.first = Some(target.first.map_or(src, |e| e.min(src)))` when the source has a
time, the target value otherwise. -/
def mergeFirstTime (t s : Option Nat) : Option Nat :=
  match s with
  | none => t
  | some f => some (match t with | none => f | some e => min e f)

/-- The last_action_time merge of aggregate_stats (max instead of min). -/
def mergeLastTime (t s : Option Nat) : Option Nat :=
  match s with
  | none => t
  | some l => some (match t with | none => l | some e => max e l)

theorem mergeFirstTime_comm (t s : Option Nat) : mergeFirstTime t s = mergeFirstTime s t := by
  cases t <;> cases s <;> simp [mergeFirstTime, Nat.min_comm]

theorem mergeFirstTime_assoc (a b c : Option Nat) :
    mergeFirstTime a (mergeFirstTime b c) = mergeFirstTime (mergeFirstTime a b) c := by
  cases a <;> cases b <;> cases c <;> simp [mergeFirstTime, Nat.min_assoc]

theorem mergeLastTime_comm (t s : Option Nat) : mergeLastTime t s = mergeLastTime s t := by
  cases t <;> cases s <;> simp [mergeLastTime, Nat.max_comm]

theorem mergeLastTime_assoc (a b c : Option Nat) :
    mergeLastTime a (mergeLastTime b c) = mergeLastTime (mergeLastTime a b) c := by
  cases a <;> cases b <;> cases c <;> simp [mergeLastTime, Nat.max_assoc]

/-- line_parser.rs::ParsedLine, the typed event produced by the line classifier. -/
inductive ParsedLine where
  | Attack (attacker target result : String) (concealment : Bool) (timestamp : Nat)
  | Damage (attacker target : String) (total : Nat) (breakdown : DMap) (timestamp : Nat)
  | Absorb (target : String) (amount : Nat) (dtype : String) (timestamp : Nat)
  | AbsorbResistance (target : String) (amount : Nat) (timestamp : Nat)
  | AbsorbReduction (target : String) (amount : Nat) (timestamp : Nat)
  | SpellResist (target spell result : String) (timestamp : Nat)
  | Save (target save_type element result : String) (timestamp : Nat)
  | Casting (caster spell : String) (timestamp : Nat)
  | Casts (caster spell : String) (timestamp : Nat)
  | PlayerJoin (account_name : String) (timestamp : Nat)
  | PlayerChat (account_name character_name chat_type : String) (timestamp : Nat)
  | PartyChat (character_name : String) (timestamp : Nat)
  | PartyJoin (character_name : String) (timestamp : Nat)
  | Resting (timestamp : Nat)
  | BuffExpired (spell_name : String) (timestamp : Nat)
deriving DecidableEq

/-- line_parser.rs::is_long_duration_spell: the fixed allow-list of channel or
missile-type spells. -/
def is_long_duration_spell (spell : String) : Bool :=
  spell == "Isaac's Greater Missile Storm" ||
  spell == "Isaac's Lesser Missile Storm" ||
  spell == "Magic Missile" ||
  spell == "Flame Arrow" ||
  spell == "Ball Lightning"

/-- line_parser.rs::get_spell_damage_type: the fixed expected damage type of the
long-duration spells with a typed signature. -/
def get_spell_damage_type (spell : String) : Option String :=
  if spell == "Flame Arrow" then some "Fire"
  else if spell == "Ball Lightning" then some "Electrical"
  else if spell == "Isaac's Greater Missile Storm" ||
          spell == "Isaac's Lesser Missile Storm" ||
          spell == "Magic Missile" then some "Magical"
  else none

/-- models/context.rs::SpellContext. -/
structure SpellContext where
  caster : String
  spell : String
  affected_targets : List String
  timestamp : Nat
deriving DecidableEq

/-- models/context.rs::PendingAttack. -/
structure PendingAttack where
  attacker : String
  target : String
  timestamp : Nat
  is_crit : Bool
deriving DecidableEq

/-- models/context.rs::PendingSpell. -/
structure PendingSpell where
  caster : String
  target : String
  spell : String
  timestamp : Nat
  had_save_roll : Bool
  had_damage_immunity : Bool
deriving DecidableEq

/-- models/context.rs::LongDurationSpell (same shape as PendingSpell). -/
structure LongDurationSpell where
  caster : String
  target : String
  spell : String
  timestamp : Nat
  had_save_roll : Bool
  had_damage_immunity : Bool
deriving DecidableEq

/-- models/stats.rs::CombatantStats, with every field of the Rust struct; the
Rust Default derives to zeros, empty maps and None times, which are the field
defaults here. -/
structure CombatantStats where
  hits : Nat := 0
  misses : Nat := 0
  critical_hits : Nat := 0
  concealment_dodges : Nat := 0
  weapon_buffs : Nat := 0
  total_damage_dealt : Nat := 0
  hit_damage : Nat := 0
  crit_damage : Nat := 0
  weapon_buff_damage : Nat := 0
  damage_by_type_dealt : DMap := []
  hit_damage_by_type : DMap := []
  crit_damage_by_type : DMap := []
  weapon_buff_damage_by_type : DMap := []
  damage_by_source_dealt : DMap := []
  damage_by_source_and_type_dealt : DMap2 := []
  damage_by_target_dealt : DMap := []
  damage_by_target_and_source_dealt : DMap2 := []
  damage_by_target_source_and_type_dealt : DMap3 := []
  hit_damage_by_target_type : DMap2 := []
  crit_damage_by_target_type : DMap2 := []
  weapon_buff_damage_by_target_type : DMap2 := []
  times_attacked : Nat := 0
  total_damage_received : Nat := 0
  damage_by_type_received : DMap := []
  damage_by_source_received : DMap := []
  damage_by_source_and_type_received : DMap2 := []
  damage_by_attacker_received : DMap := []
  damage_by_attacker_and_source_received : DMap2 := []
  total_damage_absorbed : Nat := 0
  absorbed_by_type : DMap := []
  first_action_time : Option Nat := none
  last_action_time : Option Nat := none
deriving DecidableEq

/-- The all-zero/empty CombatantStats (Rust `CombatantStats::default()`). -/
def CombatantStats.empty : CombatantStats := {}

instance : Inhabited CombatantStats := ⟨CombatantStats.empty⟩

/-- models/stats.rs::CombatantStats::update_action_time. -/
def CombatantStats.update_action_time (st : CombatantStats) (timestamp : Nat) : CombatantStats :=
  { st with
    first_action_time := if st.first_action_time.isNone then some timestamp
                         else st.first_action_time,
    last_action_time := some timestamp }

/-- gui/app.rs::aggregate_stats: folds `source` into `target`, field by field.
Fields of the Rust struct that the Rust function does not touch
(concealment_dodges and damage_by_type_received) keep the target value, exactly
as in the source. -/
def aggregate_stats (target source : CombatantStats) : CombatantStats :=
  { target with
    hits := target.hits + source.hits,
    misses := target.misses + source.misses,
    critical_hits := target.critical_hits + source.critical_hits,
    weapon_buffs := target.weapon_buffs + source.weapon_buffs,
    total_damage_dealt := target.total_damage_dealt + source.total_damage_dealt,
    hit_damage := target.hit_damage + source.hit_damage,
    crit_damage := target.crit_damage + source.crit_damage,
    weapon_buff_damage := target.weapon_buff_damage + source.weapon_buff_damage,
    times_attacked := target.times_attacked + source.times_attacked,
    total_damage_received := target.total_damage_received + source.total_damage_received,
    total_damage_absorbed := target.total_damage_absorbed + source.total_damage_absorbed,
    damage_by_type_dealt := mergeInto target.damage_by_type_dealt source.damage_by_type_dealt,
    hit_damage_by_type := mergeInto target.hit_damage_by_type source.hit_damage_by_type,
    crit_damage_by_type := mergeInto target.crit_damage_by_type source.crit_damage_by_type,
    weapon_buff_damage_by_type :=
      mergeInto target.weapon_buff_damage_by_type source.weapon_buff_damage_by_type,
    damage_by_source_dealt :=
      mergeInto target.damage_by_source_dealt source.damage_by_source_dealt,
    damage_by_source_and_type_dealt :=
      merge2 target.damage_by_source_and_type_dealt source.damage_by_source_and_type_dealt,
    damage_by_target_dealt :=
      mergeInto target.damage_by_target_dealt source.damage_by_target_dealt,
    damage_by_target_and_source_dealt :=
      merge2 target.damage_by_target_and_source_dealt source.damage_by_target_and_source_dealt,
    damage_by_target_source_and_type_dealt :=
      merge3 target.damage_by_target_source_and_type_dealt
        source.damage_by_target_source_and_type_dealt,
    hit_damage_by_target_type :=
      merge2 target.hit_damage_by_target_type source.hit_damage_by_target_type,
    crit_damage_by_target_type :=
      merge2 target.crit_damage_by_target_type source.crit_damage_by_target_type,
    weapon_buff_damage_by_target_type :=
      merge2 target.weapon_buff_damage_by_target_type source.weapon_buff_damage_by_target_type,
    damage_by_source_received :=
      mergeInto target.damage_by_source_received source.damage_by_source_received,
    damage_by_source_and_type_received :=
      merge2 target.damage_by_source_and_type_received source.damage_by_source_and_type_received,
    damage_by_attacker_received :=
      mergeInto target.damage_by_attacker_received source.damage_by_attacker_received,
    damage_by_attacker_and_source_received :=
      merge2 target.damage_by_attacker_and_source_received
        source.damage_by_attacker_and_source_received,
    absorbed_by_type := mergeInto target.absorbed_by_type source.absorbed_by_type,
    first_action_time := mergeFirstTime target.first_action_time source.first_action_time,
    last_action_time := mergeLastTime target.last_action_time source.last_action_time }

/-- models/encounter.rs::Encounter.  The stats HashMap is embedded as a total
function with `CombatantStats::default()` for absent names (`entry(..).or_default()`). -/
structure Encounter where
  id : Nat
  start_time : Nat
  end_time : Nat
  stats : String → CombatantStats
  most_damaged_participant : String
  total_damage : Nat

/-- models/encounter.rs::Encounter::new. -/
def Encounter.new (id start_time : Nat) : Encounter :=
  { id := id, start_time := start_time, end_time := start_time,
    stats := fun _ => CombatantStats.empty,
    most_damaged_participant := "", total_damage := 0 }

/-- Mutation of one name in the stats table:
`let st = encounter.stats.entry(name).or_default(); *st = f(st)`. -/
def Encounter.updateStats (enc : Encounter) (name : String) (f : CombatantStats → CombatantStats) :
    Encounter :=
  { enc with stats := fun n => if n = name then f (enc.stats n) else enc.stats n }

/-- The attribution result of the damage branch of processor.rs: the
(damage_source, is_from_crit, is_weapon_buff_damage) triple together with the
tracker collections as the branch leaves them (after expiry and consumption). -/
structure AttributionResult where
  damage_source : String
  is_from_crit : Bool
  is_weapon_buff_damage : Bool
  spell_contexts : List SpellContext
  pending_attacks : List PendingAttack
  pending_spells : List PendingSpell
  long_duration_spells : List LongDurationSpell
deriving DecidableEq

/-- Rust `iter().enumerate().find(p)`: the first element satisfying `p`, with its index. -/
def findWithIdx {α : Type} (p : α → Bool) : List α → Option (Nat × α)
  | [] => none
  | a :: t => if p a then some (0, a) else (findWithIdx p t).map (fun ib => (ib.1 + 1, ib.2))

/-- The update-the-first-matching-context loop: set the caster of the first
SpellContext whose spell matches and whose caster is still "Unknown Caster"
(processor.rs, the loops with a break over spell_contexts). -/
def resolveContextCaster (spell attacker : String) : List SpellContext → List SpellContext
  | [] => []
  | c :: t =>
    if c.spell == spell && c.caster == "Unknown Caster" then
      { c with caster := attacker } :: t
    else c :: resolveContextCaster spell attacker t

/-- The long-duration matching predicate of processor.rs (lines 385 to 402):
caster matches (or is unknown), target matches, and for a spell with a fixed
expected damage type the breakdown must be a single entry of exactly that type. -/
def longMatches (attacker target : String) (breakdown : DMap) (spell : LongDurationSpell) : Bool :=
  let caster_matches := spell.caster == attacker || spell.caster == "Unknown Caster"
  let target_matches := spell.target == target
  if !(caster_matches && target_matches) then false
  else
    match get_spell_damage_type spell.spell with
    | some expected_type => breakdown.length == 1 && containsKey breakdown expected_type
    | none => true

/-- The oldest-pending-attack scan of processor.rs (lines 441 to 452): a fold with a
strictly-decreasing timestamp, starting from u64::MAX, returning (index, timestamp). -/
def oldestAttack (attacker target : String) (l : List PendingAttack) : Option (Nat × Nat) :=
  let r := l.enum.foldl
    (fun acc iv =>
      if iv.2.attacker == attacker && iv.2.target == target && iv.2.timestamp < acc.2
      then (some iv.1, iv.2.timestamp) else acc)
    ((none : Option Nat), 18446744073709551615)
  r.1.map (fun idx => (idx, r.2))

/-- STEP 2 of the damage attribution (processor.rs lines 428 to 516): no long-duration
spell matched; find spell and attack candidates, apply the weapon-buff
short-circuit, then choose and consume.  `Vec::remove(idx)` is `List.eraseIdx`;
the removed element (always in bounds) is read with `List.get?`. -/
def attributeStep2 (attacker target : String) (breakdown : DMap)
    (spell_contexts : List SpellContext) (pending_attacks : List PendingAttack)
    (pending_spells : List PendingSpell) (long_duration_spells : List LongDurationSpell) :
    AttributionResult :=
  let spell_with_indicators := findWithIdx
    (fun spell => (spell.caster == attacker || spell.caster == "Unknown Caster") &&
      spell.target == target && (spell.had_save_roll || spell.had_damage_immunity))
    pending_spells
  let oldest_spell :=
    match spell_with_indicators with
    | some x => some x
    | none => findWithIdx
        (fun spell => (spell.caster == attacker || spell.caster == "Unknown Caster") &&
          spell.target == target) pending_spells
  let oldest_attack := oldestAttack attacker target pending_attacks
  let is_weapon_buff := breakdown.length == 1 && containsKey breakdown "Fire"
  if is_weapon_buff && !pending_attacks.isEmpty && pending_spells.isEmpty then
    { damage_source := "Attack", is_from_crit := false, is_weapon_buff_damage := true,
      spell_contexts := spell_contexts, pending_attacks := pending_attacks,
      pending_spells := pending_spells, long_duration_spells := long_duration_spells }
  else
    match oldest_spell, oldest_attack with
    | some (spell_idx, spell), some (attack_idx, attack_timestamp) =>
      let should_use_spell := spell.had_save_roll || spell.had_damage_immunity ||
        spell.timestamp ≤ attack_timestamp || !(containsKey breakdown "Physical")
      if should_use_spell then
        { damage_source := "Spell: " ++ spell.spell, is_from_crit := false,
          is_weapon_buff_damage := false,
          spell_contexts := if spell.caster == "Unknown Caster" then
              resolveContextCaster spell.spell attacker spell_contexts
            else spell_contexts,
          pending_attacks := pending_attacks,
          pending_spells := pending_spells.eraseIdx spell_idx,
          long_duration_spells := long_duration_spells }
      else
        { damage_source := "Attack",
          is_from_crit := ((pending_attacks.get? attack_idx).map (fun a => a.is_crit)).getD false,
          is_weapon_buff_damage := false,
          spell_contexts := spell_contexts,
          pending_attacks := pending_attacks.eraseIdx attack_idx,
          pending_spells := pending_spells,
          long_duration_spells := long_duration_spells }
    | some (spell_idx, spell), none =>
      { damage_source := "Spell: " ++ spell.spell, is_from_crit := false,
        is_weapon_buff_damage := false,
        spell_contexts := if spell.caster == "Unknown Caster" then
            resolveContextCaster spell.spell attacker spell_contexts
          else spell_contexts,
        pending_attacks := pending_attacks,
        pending_spells := pending_spells.eraseIdx spell_idx,
        long_duration_spells := long_duration_spells }
    | none, some (attack_idx, _) =>
      if containsKey breakdown "Physical" then
        { damage_source := "Attack",
          is_from_crit := ((pending_attacks.get? attack_idx).map (fun a => a.is_crit)).getD false,
          is_weapon_buff_damage := false,
          spell_contexts := spell_contexts,
          pending_attacks := pending_attacks.eraseIdx attack_idx,
          pending_spells := pending_spells,
          long_duration_spells := long_duration_spells }
      else
        { damage_source := "Unknown", is_from_crit := false, is_weapon_buff_damage := false,
          spell_contexts := spell_contexts, pending_attacks := pending_attacks,
          pending_spells := pending_spells, long_duration_spells := long_duration_spells }
    | none, none =>
      { damage_source := "Unknown", is_from_crit := false, is_weapon_buff_damage := false,
        spell_contexts := spell_contexts, pending_attacks := pending_attacks,
        pending_spells := pending_spells, long_duration_spells := long_duration_spells }

/-- The whole damage attribution of processor.rs (lines 374 to 517): expire
long-duration spells older than 6s and pending attacks older than 3s, try the
long-duration match (STEP 1, consuming nothing), else fall through to
attributeStep2.  `saturating_sub` is the truncated Nat subtraction. -/
def attributeDamage (attacker target : String) (breakdown : DMap) (combat_time : Nat)
    (spell_contexts : List SpellContext) (pending_attacks : List PendingAttack)
    (pending_spells : List PendingSpell) (long_duration_spells : List LongDurationSpell) :
    AttributionResult :=
  let long_duration_spells :=
    long_duration_spells.filter (fun spell => combat_time - spell.timestamp ≤ 6)
  let pending_attacks :=
    pending_attacks.filter (fun attack => combat_time - attack.timestamp ≤ 3)
  match long_duration_spells.find? (longMatches attacker target breakdown) with
  | some long_spell =>
    let spell_name := long_spell.spell
    if long_spell.caster == "Unknown Caster" then
      { damage_source := "Spell: " ++ spell_name, is_from_crit := false,
        is_weapon_buff_damage := false,
        spell_contexts := resolveContextCaster spell_name attacker spell_contexts,
        pending_attacks := pending_attacks,
        pending_spells := pending_spells,
        long_duration_spells := long_duration_spells.map (fun ls =>
          if ls.spell == spell_name && ls.caster == "Unknown Caster" then
            { ls with caster := attacker } else ls) }
    else
      { damage_source := "Spell: " ++ spell_name, is_from_crit := false,
        is_weapon_buff_damage := false,
        spell_contexts := spell_contexts, pending_attacks := pending_attacks,
        pending_spells := pending_spells, long_duration_spells := long_duration_spells }
  | none =>
    attributeStep2 attacker target breakdown spell_contexts pending_attacks pending_spells
      long_duration_spells

/-- The SpellResist context loop for a regular spell (processor.rs lines 271 to 287):
the first context with the same spell that does not yet contain the target gains
the target and yields a PendingSpell with the context caster. -/
def spellResistCtxLoop (target spell : String) (combat_time : Nat) :
    List SpellContext → Option (List SpellContext × PendingSpell)
  | [] => none
  | ctx :: rest =>
    if ctx.spell == spell && !(ctx.affected_targets.contains target) then
      some ({ ctx with affected_targets := ctx.affected_targets ++ [target] } :: rest,
        { caster := ctx.caster, target := target, spell := spell, timestamp := combat_time,
          had_save_roll := false, had_damage_immunity := false })
    else (spellResistCtxLoop target spell combat_time rest).map (fun p => (ctx :: p.1, p.2))

/-- The SpellResist context loop for a long-duration spell (processor.rs lines 251 to
258): only the context gains the target, no PendingSpell is created. -/
def longResistCtxLoop (target spell : String) : List SpellContext → Option (List SpellContext)
  | [] => none
  | ctx :: rest =>
    if ctx.spell == spell && !(ctx.affected_targets.contains target) then
      some ({ ctx with affected_targets := ctx.affected_targets ++ [target] } :: rest)
    else (longResistCtxLoop target spell rest).map (fun cs => ctx :: cs)

/-- The SpellResist branch of process_parsed_line (processor.rs lines 231 to 309).
All pending spells are cleared first, for long-duration and regular spells alike. -/
def processSpellResist (target spell : String) (combat_time : Nat)
    (spell_contexts : List SpellContext) (long_duration_spells : List LongDurationSpell) :
    List SpellContext × List PendingSpell × List LongDurationSpell :=
  let pending_spells : List PendingSpell := []
  let newContext : SpellContext :=
    { caster := "Unknown Caster", spell := spell, affected_targets := [target],
      timestamp := combat_time }
  let unknownPending : PendingSpell :=
    { caster := "Unknown Caster", target := target, spell := spell,
      timestamp := combat_time, had_save_roll := false, had_damage_immunity := false }
  let newLong : LongDurationSpell :=
    { caster := "Unknown Caster", target := target, spell := spell,
      timestamp := combat_time, had_save_roll := false, had_damage_immunity := false }
  if is_long_duration_spell spell then
    let long_duration_spells := long_duration_spells ++ [newLong]
    match longResistCtxLoop target spell spell_contexts with
    | some ctxs => (ctxs, pending_spells, long_duration_spells)
    | none => (spell_contexts ++ [newContext], pending_spells, long_duration_spells)
  else
    match spellResistCtxLoop target spell combat_time spell_contexts with
    | some r => (r.1, pending_spells ++ [r.2], long_duration_spells)
    | none =>
      (spell_contexts ++ [newContext], pending_spells ++ [unknownPending],
       long_duration_spells)

/-- The Save branch of process_parsed_line (processor.rs lines 310 to 332): the first
context that is empty or contains the target gains the target, and every pending
and long-duration spell for that target and that context spell is marked
had_save_roll; the loop breaks there. -/
def processSaveCtxs (target : String) :
    List SpellContext → List PendingSpell → List LongDurationSpell →
    List SpellContext × List PendingSpell × List LongDurationSpell
  | [], spells, longs => ([], spells, longs)
  | ctx :: rest, spells, longs =>
    if ctx.affected_targets.isEmpty || ctx.affected_targets.contains target then
      let newCtx := if !(ctx.affected_targets.contains target) then
          { ctx with affected_targets := ctx.affected_targets ++ [target] } else ctx
      let spells := spells.map (fun ps =>
        if ps.target == target && ps.spell == ctx.spell then
          { ps with had_save_roll := true } else ps)
      let longs := longs.map (fun ls =>
        if ls.target == target && ls.spell == ctx.spell then
          { ls with had_save_roll := true } else ls)
      (newCtx :: rest, spells, longs)
    else
      let r := processSaveCtxs target rest spells longs
      (ctx :: r.1, r.2.1, r.2.2)

/-- The Attack branch stats update (processor.rs lines 342 to 370). -/
def applyAttackStats (st : CombatantStats) (result : String) (concealment : Bool)
    (timestamp : Nat) : CombatantStats :=
  let st := st.update_action_time timestamp
  if result == "hit" then { st with hits := st.hits + 1 }
  else if result == "miss" then
    let st := { st with misses := st.misses + 1 }
    if concealment then { st with concealment_dodges := st.concealment_dodges + 1 } else st
  else if result == "critical hit" then { st with critical_hits := st.critical_hits + 1 }
  else st

/-- The attacker-side stats update of the Damage branch (processor.rs lines 541 to
616), flattened into one record update: every Rust statement updates a distinct
field from its own previous value, and the single loop over the breakdown is
split into one fold per map field (the per-entry updates of distinct fields
commute). -/
def applyAttackerDamage (st : CombatantStats) (target final_damage_source damage_source : String)
    (is_from_crit is_weapon_buff_damage : Bool) (total : Nat) (breakdown : DMap)
    (timestamp : Nat) : CombatantStats :=
  let st := st.update_action_time timestamp
  let isAttack := damage_source == "Attack"
  { st with
    total_damage_dealt := st.total_damage_dealt + total,
    damage_by_source_dealt := bump st.damage_by_source_dealt final_damage_source total,
    damage_by_target_dealt := bump st.damage_by_target_dealt target total,
    damage_by_target_and_source_dealt :=
      bumpIn2 st.damage_by_target_and_source_dealt target final_damage_source total,
    damage_by_target_source_and_type_dealt :=
      breakdown.foldl (fun m kv => bumpIn3 m target final_damage_source kv.1 kv.2)
        st.damage_by_target_source_and_type_dealt,
    weapon_buffs := if isAttack && is_weapon_buff_damage then st.weapon_buffs + 1
      else st.weapon_buffs,
    weapon_buff_damage := if isAttack && is_weapon_buff_damage then
        st.weapon_buff_damage + total else st.weapon_buff_damage,
    crit_damage := if isAttack && !is_weapon_buff_damage && is_from_crit then
        st.crit_damage + total else st.crit_damage,
    hit_damage := if isAttack && !is_weapon_buff_damage && !is_from_crit then
        st.hit_damage + total else st.hit_damage,
    damage_by_type_dealt := mergeInto st.damage_by_type_dealt breakdown,
    weapon_buff_damage_by_type := if isAttack && is_weapon_buff_damage then
        mergeInto st.weapon_buff_damage_by_type breakdown else st.weapon_buff_damage_by_type,
    weapon_buff_damage_by_target_type := if isAttack && is_weapon_buff_damage then
        breakdown.foldl (fun m kv => bumpIn2 m target kv.1 kv.2)
          st.weapon_buff_damage_by_target_type
      else st.weapon_buff_damage_by_target_type,
    crit_damage_by_type := if isAttack && !is_weapon_buff_damage && is_from_crit then
        mergeInto st.crit_damage_by_type breakdown else st.crit_damage_by_type,
    crit_damage_by_target_type := if isAttack && !is_weapon_buff_damage && is_from_crit then
        breakdown.foldl (fun m kv => bumpIn2 m target kv.1 kv.2) st.crit_damage_by_target_type
      else st.crit_damage_by_target_type,
    hit_damage_by_type := if isAttack && !is_weapon_buff_damage && !is_from_crit then
        mergeInto st.hit_damage_by_type breakdown else st.hit_damage_by_type,
    hit_damage_by_target_type := if isAttack && !is_weapon_buff_damage && !is_from_crit then
        breakdown.foldl (fun m kv => bumpIn2 m target kv.1 kv.2) st.hit_damage_by_target_type
      else st.hit_damage_by_target_type,
    damage_by_source_and_type_dealt :=
      breakdown.foldl (fun m kv => bumpIn2 m final_damage_source kv.1 kv.2)
        st.damage_by_source_and_type_dealt }

/-- The target-side stats update of the Damage branch (processor.rs lines 618 to
645), flattened the same way; received_source is
`"{actual_attacker} ({final_damage_source})"`. -/
def applyTargetDamage (st : CombatantStats) (actual_attacker final_damage_source : String)
    (total : Nat) (breakdown : DMap) (timestamp : Nat) : CombatantStats :=
  let st := st.update_action_time timestamp
  let received_source := actual_attacker ++ " (" ++ final_damage_source ++ ")"
  { st with
    total_damage_received := st.total_damage_received + total,
    damage_by_source_received := bump st.damage_by_source_received received_source total,
    damage_by_attacker_received := bump st.damage_by_attacker_received actual_attacker total,
    damage_by_attacker_and_source_received :=
      bumpIn2 st.damage_by_attacker_and_source_received actual_attacker final_damage_source total,
    damage_by_type_received := mergeInto st.damage_by_type_received breakdown,
    damage_by_source_and_type_received :=
      breakdown.foldl (fun m kv => bumpIn2 m received_source kv.1 kv.2)
        st.damage_by_source_and_type_received }

/-- The Absorb branch stats update (all three Absorb variants share it, with dtype
the typed name, "Resistance" or "Reduction"). -/
def applyAbsorb (st : CombatantStats) (amount : Nat) (dtype : String) (timestamp : Nat) :
    CombatantStats :=
  let st := st.update_action_time timestamp
  { st with
    total_damage_absorbed := st.total_damage_absorbed + amount,
    absorbed_by_type := bump st.absorbed_by_type dtype amount }

/-- Mark every pending spell for the absorbing target as had_damage_immunity. -/
def markImmunitySpells (target : String) (spells : List PendingSpell) : List PendingSpell :=
  spells.map (fun ps => if ps.target == target then { ps with had_damage_immunity := true } else ps)

/-- Mark every long-duration spell for the absorbing target as had_damage_immunity. -/
def markImmunityLongs (target : String) (longs : List LongDurationSpell) :
    List LongDurationSpell :=
  longs.map (fun ls => if ls.target == target then { ls with had_damage_immunity := true } else ls)

/-- Split a character list at the first occurrence of the separator " | "
(Rust `str::find(" | ")` with the two slices around it). -/
def splitSummon : List Char → Option (List Char × List Char)
  | ' ' :: '|' :: ' ' :: tail => some ([], tail)
  | c :: rest => (splitSummon rest).map (fun p => (c :: p.1, p.2))
  | [] => none

/-- Rust `str::trim` on a character list (drop whitespace on both ends). -/
def trimChars (l : List Char) : List Char :=
  ((l.dropWhile Char.isWhitespace).reverse.dropWhile Char.isWhitespace).reverse

/-- The summon-attribution split (processor.rs lines 520 to 528): the name before
the first " | " (trimmed) and the summon name after it (trimmed). -/
def summonSplit (attacker : String) : String × Option String :=
  match splitSummon attacker.data with
  | some p => (String.mk (trimChars p.1), some (String.mk (trimChars p.2)))
  | none => (attacker, none)

/-- The mutable state threaded through process_parsed_line by its callers:
the by-reference arguments plus the shared encounter table and counter. -/
structure ProcState where
  last_combat_time : Nat
  current_encounter : Option Nat
  spell_contexts : List SpellContext
  pending_attacks : List PendingAttack
  pending_spells : List PendingSpell
  long_duration_spells : List LongDurationSpell
  encounters : Nat → Option Encounter
  encounter_counter : Nat

/-- `encounters.insert(i, e)` on the id-keyed table. -/
def updEnc (encs : Nat → Option Encounter) (i : Nat) (e : Encounter) : Nat → Option Encounter :=
  fun n => if n = i then some e else encs n

/-- The new-encounter transition (processor.rs lines 176 to 193): allocate the next
id from the counter, insert a fresh Encounter, clear the spell-correlation state;
pending attacks are intentionally not cleared. -/
def startNewEncounter (s : ProcState) (combat_time : Nat) : ProcState :=
  { s with
    encounters := updEnc s.encounters s.encounter_counter
      (Encounter.new s.encounter_counter combat_time),
    current_encounter := some s.encounter_counter,
    encounter_counter := s.encounter_counter + 1,
    spell_contexts := [],
    pending_spells := [],
    long_duration_spells := [] }

/-- Only Damage events with a positive total take part in the timeout computation
(processor.rs lines 162 to 165). -/
def shouldUpdateCombatTime (parsed : ParsedLine) : Bool :=
  match parsed with
  | .Damage _ _ total _ _ => decide (0 < total)
  | _ => false

/-- The new-encounter decision (processor.rs lines 168 to 174): for a positive-total
damage event, no current encounter or a gap above ENCOUNTER_TIMEOUT = 6; for any
other event, only when no encounter exists. -/
def shouldStartNew (parsed : ParsedLine) (combat_time : Nat) (s : ProcState) : Bool :=
  if shouldUpdateCombatTime parsed then
    s.current_encounter.isNone ||
      (decide (s.last_combat_time < combat_time) &&
       decide (6 < combat_time - s.last_combat_time))
  else s.current_encounter.isNone

/-- The encounter-segmentation prefix of process_parsed_line (lines 161 to 198):
maybe start a new encounter, then record the damage time. -/
def segmentEncounter (parsed : ParsedLine) (combat_time : Nat) (s : ProcState) : ProcState :=
  let s := if shouldStartNew parsed combat_time s then startNewEncounter s combat_time else s
  if shouldUpdateCombatTime parsed then { s with last_combat_time := combat_time } else s

/-- The per-event dispatch of process_parsed_line after segmentation (processor.rs
lines 200 to 718): advance the active encounter end_time and run the branch of
the event.  When no current encounter exists, or its id is absent from the
table, nothing happens. -/
def dispatchEvent (parsed : ParsedLine) (combat_time : Nat) (s : ProcState) : ProcState :=
  match s.current_encounter with
    | none => s
    | some encounter_id =>
      match s.encounters encounter_id with
      | none => s
      | some encounter =>
        let encounter := { encounter with end_time := combat_time }
        match parsed with
        | .Casting .. =>
          { s with encounters := updEnc s.encounters encounter_id encounter }
        | .Casts .. =>
          { s with encounters := updEnc s.encounters encounter_id encounter }
        | .SpellResist target spell _ _ =>
          let r := processSpellResist target spell combat_time s.spell_contexts
            s.long_duration_spells
          { s with encounters := updEnc s.encounters encounter_id encounter,
                   spell_contexts := r.1, pending_spells := r.2.1,
                   long_duration_spells := r.2.2 }
        | .Save target _ _ _ _ =>
          let r := processSaveCtxs target s.spell_contexts s.pending_spells
            s.long_duration_spells
          { s with encounters := updEnc s.encounters encounter_id encounter,
                   spell_contexts := r.1, pending_spells := r.2.1,
                   long_duration_spells := r.2.2 }
        | .Attack attacker target result concealment timestamp =>
          let pending_spells : List PendingSpell := []
          let pending_attacks :=
            s.pending_attacks.filter (fun attack => combat_time - attack.timestamp ≤ 3)
          let encounter := encounter.updateStats attacker
            (fun st => applyAttackStats st result concealment timestamp)
          let newHit : PendingAttack :=
            { attacker := attacker, target := target, timestamp := combat_time,
              is_crit := false }
          let newCrit : PendingAttack :=
            { attacker := attacker, target := target, timestamp := combat_time,
              is_crit := true }
          let pending_attacks :=
            if result == "hit" then pending_attacks ++ [newHit]
            else if result == "critical hit" then pending_attacks ++ [newCrit]
            else pending_attacks
          { s with encounters := updEnc s.encounters encounter_id encounter,
                   pending_attacks := pending_attacks, pending_spells := pending_spells }
        | .Damage attacker target total breakdown timestamp =>
          let r := attributeDamage attacker target breakdown combat_time s.spell_contexts
            s.pending_attacks s.pending_spells s.long_duration_spells
          let split := summonSplit attacker
          let actual_attacker := split.1
          let final_damage_source :=
            match split.2 with
            | some summon =>
              if r.damage_source == "Attack" then "Attack (" ++ summon ++ ")"
              else r.damage_source ++ " (" ++ summon ++ ")"
            | none => r.damage_source
          let encounter := encounter.updateStats actual_attacker (fun st =>
            applyAttackerDamage st target final_damage_source r.damage_source
              r.is_from_crit r.is_weapon_buff_damage total breakdown timestamp)
          let encounter := encounter.updateStats target (fun st =>
            applyTargetDamage st actual_attacker final_damage_source total breakdown timestamp)
          { s with encounters := updEnc s.encounters encounter_id encounter,
                   spell_contexts := r.spell_contexts,
                   pending_attacks := r.pending_attacks,
                   pending_spells := r.pending_spells,
                   long_duration_spells := r.long_duration_spells }
        | .Absorb target amount dtype timestamp =>
          let encounter := encounter.updateStats target
            (fun st => applyAbsorb st amount dtype timestamp)
          { s with encounters := updEnc s.encounters encounter_id encounter,
                   pending_spells := markImmunitySpells target s.pending_spells,
                   long_duration_spells := markImmunityLongs target s.long_duration_spells }
        | .AbsorbResistance target amount timestamp =>
          let encounter := encounter.updateStats target
            (fun st => applyAbsorb st amount "Resistance" timestamp)
          { s with encounters := updEnc s.encounters encounter_id encounter,
                   pending_spells := markImmunitySpells target s.pending_spells,
                   long_duration_spells := markImmunityLongs target s.long_duration_spells }
        | .AbsorbReduction target amount timestamp =>
          let encounter := encounter.updateStats target
            (fun st => applyAbsorb st amount "Reduction" timestamp)
          { s with encounters := updEnc s.encounters encounter_id encounter,
                   pending_spells := markImmunitySpells target s.pending_spells,
                   long_duration_spells := markImmunityLongs target s.long_duration_spells }
        | _ => s

/-- processor.rs::process_parsed_line.  The administrative variants only talk to the
player-registry/buff-tracker collaborators and return before any combat-state
mutation, so they leave this state unchanged; every other event goes through
encounter segmentation and then its own branch.  ENCOUNTER_TIMEOUT = 6. -/
def process_parsed_line (parsed : ParsedLine) (combat_time : Nat) (s : ProcState) : ProcState :=
  match parsed with
  | .PlayerJoin .. => s
  | .PlayerChat .. => s
  | .PartyChat .. => s
  | .PartyJoin .. => s
  | .Resting .. => s
  | .BuffExpired .. => s
  | _ => dispatchEvent parsed combat_time (segmentEncounter parsed combat_time s)

/-- The combat_time every caller passes: the timestamp of the parsed line itself
(log/watcher.rs, main.rs). -/
def combatTime : ParsedLine → Nat
  | .Attack _ _ _ _ ts => ts
  | .Damage _ _ _ _ ts => ts
  | .Absorb _ _ _ ts => ts
  | .AbsorbResistance _ _ ts => ts
  | .AbsorbReduction _ _ ts => ts
  | .SpellResist _ _ _ ts => ts
  | .Save _ _ _ _ ts => ts
  | .Casting _ _ ts => ts
  | .Casts _ _ ts => ts
  | .PlayerJoin _ ts => ts
  | .PlayerChat _ _ _ ts => ts
  | .PartyChat _ ts => ts
  | .PartyJoin _ ts => ts
  | .Resting ts => ts
  | .BuffExpired _ ts => ts

/-- The initial processing state: empty tracker collections, no current encounter,
last_combat_time 0, no encounters, and the shared counter starting at 1
(gui/app.rs line 77, log/watcher.rs line 716). -/
def initState : ProcState :=
  { last_combat_time := 0, current_encounter := none, spell_contexts := [],
    pending_attacks := [], pending_spells := [], long_duration_spells := [],
    encounters := fun _ => none, encounter_counter := 1 }

/-- Processing a whole sequence of parsed lines, as the caller loops do. -/
def processLog (events : List ParsedLine) (s : ProcState) : ProcState :=
  events.foldl (fun st e => process_parsed_line e (combatTime e) st) s

/-- The stats record of a name inside an encounter of a table, defaulting to the
all-zero record, as entry(..).or_default() reads it. -/
def getStatsT (encs : Nat → Option Encounter) (i : Nat) (name : String) : CombatantStats :=
  match encs i with
  | some enc => enc.stats name
  | none => CombatantStats.empty

/-- The stats record of a name inside an encounter of the processing state. -/
def getStats (s : ProcState) (i : Nat) (name : String) : CombatantStats :=
  getStatsT s.encounters i name

theorem getStatsT_updEnc (E : Nat → Option Encounter) (id : Nat) (enc : Encounter)
    (i : Nat) (name : String) :
    getStatsT (updEnc E id enc) i name = if i = id then enc.stats name else getStatsT E i name := by
  unfold getStatsT updEnc
  rcases eq_or_ne i id with h | h
  · simp [h]
  · simp [h]

theorem updateStats_stats (enc : Encounter) (name : String) (f : CombatantStats → CombatantStats)
    (n : String) :
    (enc.updateStats name f).stats n = if n = name then f (enc.stats n) else enc.stats n := rfl

theorem statsP_startNew (P : CombatantStats → Prop) (hempty : P CombatantStats.empty)
    (s : ProcState) (ct : Nat) (h : ∀ i name, P (getStats s i name)) :
    ∀ i name, P (getStats (startNewEncounter s ct) i name) := by
  intro i name
  show P (getStatsT (updEnc s.encounters s.encounter_counter
    (Encounter.new s.encounter_counter ct)) i name)
  rw [getStatsT_updEnc]
  split
  · simpa [Encounter.new] using hempty
  · exact h i name

theorem statsP_segment (P : CombatantStats → Prop) (hempty : P CombatantStats.empty)
    (p : ParsedLine) (ct : Nat) (s : ProcState) (h : ∀ i name, P (getStats s i name)) :
    ∀ i name, P (getStats (segmentEncounter p ct s) i name) := by
  intro i name
  simp only [segmentEncounter]
  split
  · split
    · exact statsP_startNew P hempty s ct h i name
    · exact h i name
  · split
    · exact statsP_startNew P hempty s ct h i name
    · exact h i name

theorem statsP_store (P : CombatantStats → Prop) (s1 : ProcState) (id : Nat)
    (enc enc' : Encounter) (he : s1.encounters id = some enc)
    (h1 : ∀ i name, P (getStats s1 i name))
    (hstats : ∀ name, P (enc.stats name) → P (enc'.stats name))
    (i : Nat) (name : String) :
    P (getStatsT (updEnc s1.encounters id enc') i name) := by
  rw [getStatsT_updEnc]
  split
  · apply hstats
    have := h1 id name
    unfold getStats getStatsT at this
    rw [he] at this
    exact this
  · exact h1 i name

/-- Preservation of a per-record property through one processed line: the new stats
table only ever holds old records, the empty record of a fresh encounter, or a
record obtained from an old one by the branch update functions. -/
theorem statsP_process (P : CombatantStats → Prop)
    (hempty : P CombatantStats.empty)
    (hattack : ∀ st r c ts, P st → P (applyAttackStats st r c ts))
    (habsorb : ∀ st a d ts, P st → P (applyAbsorb st a d ts))
    (htarget : ∀ st a f total bd ts, P st → P (applyTargetDamage st a f total bd ts))
    (p : ParsedLine)
    (hdamage : ∀ st t f d crit wb a tgt total bd ts2 ts3,
      p = ParsedLine.Damage a tgt total bd ts3 →
      P st → P (applyAttackerDamage st t f d crit wb total bd ts2))
    (ct : Nat) (s : ProcState)
    (h : ∀ i name, P (getStats s i name)) :
    ∀ i name, P (getStats (process_parsed_line p ct s) i name) := by
  intro i name
  have h1 := statsP_segment P hempty p ct s h
  cases p with
  | PlayerJoin a ts => exact h i name
  | PlayerChat a b c ts => exact h i name
  | PartyChat a ts => exact h i name
  | PartyJoin a ts => exact h i name
  | Resting ts => exact h i name
  | BuffExpired a ts => exact h i name
  | Casting caster spell ts =>
    simp only [process_parsed_line, dispatchEvent]
    split
    · exact h1 i name
    · rename_i id heq
      split
      · exact h1 i name
      · rename_i enc henc
        exact statsP_store P _ id enc { enc with end_time := ct } henc h1
          (fun n hP => hP) i name
  | Casts caster spell ts =>
    simp only [process_parsed_line, dispatchEvent]
    split
    · exact h1 i name
    · rename_i id heq
      split
      · exact h1 i name
      · rename_i enc henc
        exact statsP_store P _ id enc { enc with end_time := ct } henc h1
          (fun n hP => hP) i name
  | SpellResist target spell result ts =>
    simp only [process_parsed_line, dispatchEvent]
    split
    · exact h1 i name
    · rename_i id heq
      split
      · exact h1 i name
      · rename_i enc henc
        exact statsP_store P _ id enc { enc with end_time := ct } henc h1
          (fun n hP => hP) i name
  | Save target st2 el res ts =>
    simp only [process_parsed_line, dispatchEvent]
    split
    · exact h1 i name
    · rename_i id heq
      split
      · exact h1 i name
      · rename_i enc henc
        exact statsP_store P _ id enc { enc with end_time := ct } henc h1
          (fun n hP => hP) i name
  | Attack attacker target result concealment ts =>
    simp only [process_parsed_line, dispatchEvent]
    split
    · exact h1 i name
    · rename_i id heq
      split
      · exact h1 i name
      · rename_i enc henc
        exact statsP_store P _ id enc _ henc h1
          (fun n hP => by
            rw [updateStats_stats]
            split
            · exact hattack _ _ _ _ hP
            · exact hP) i name
  | Damage attacker target total bd ts =>
    simp only [process_parsed_line, dispatchEvent]
    split
    · exact h1 i name
    · rename_i id heq
      split
      · exact h1 i name
      · rename_i enc henc
        exact statsP_store P _ id enc _ henc h1
          (fun n hP => by
            rw [updateStats_stats, updateStats_stats]
            split
            · split
              · exact htarget _ _ _ _ _ _
                  (hdamage _ _ _ _ _ _ _ _ _ _ _ _ rfl hP)
              · exact htarget _ _ _ _ _ _ hP
            · split
              · exact hdamage _ _ _ _ _ _ _ _ _ _ _ _ rfl hP
              · exact hP) i name
  | Absorb target amount dtype ts =>
    simp only [process_parsed_line, dispatchEvent]
    split
    · exact h1 i name
    · rename_i id heq
      split
      · exact h1 i name
      · rename_i enc henc
        exact statsP_store P _ id enc _ henc h1
          (fun n hP => by
            rw [updateStats_stats]
            split
            · exact habsorb _ _ _ _ hP
            · exact hP) i name
  | AbsorbResistance target amount ts =>
    simp only [process_parsed_line, dispatchEvent]
    split
    · exact h1 i name
    · rename_i id heq
      split
      · exact h1 i name
      · rename_i enc henc
        exact statsP_store P _ id enc _ henc h1
          (fun n hP => by
            rw [updateStats_stats]
            split
            · exact habsorb _ _ _ _ hP
            · exact hP) i name
  | AbsorbReduction target amount ts =>
    simp only [process_parsed_line, dispatchEvent]
    split
    · exact h1 i name
    · rename_i id heq
      split
      · exact h1 i name
      · rename_i enc henc
        exact statsP_store P _ id enc _ henc h1
          (fun n hP => by
            rw [updateStats_stats]
            split
            · exact habsorb _ _ _ _ hP
            · exact hP) i name

theorem statsP_processLog (P : CombatantStats → Prop)
    (hempty : P CombatantStats.empty)
    (hattack : ∀ st r c ts, P st → P (applyAttackStats st r c ts))
    (habsorb : ∀ st a d ts, P st → P (applyAbsorb st a d ts))
    (htarget : ∀ st a f total bd ts, P st → P (applyTargetDamage st a f total bd ts))
    (events : List ParsedLine)
    (hdamage : ∀ e ∈ events, ∀ st t f d crit wb a tgt total bd ts2 ts3,
      e = ParsedLine.Damage a tgt total bd ts3 →
      P st → P (applyAttackerDamage st t f d crit wb total bd ts2))
    (s : ProcState) (h : ∀ i name, P (getStats s i name)) :
    ∀ i name, P (getStats (processLog events s) i name) := by
  induction events generalizing s with
  | nil => exact h
  | cons e es ih =>
    exact ih (fun e' he' => hdamage e' (List.mem_cons_of_mem _ he'))
      (process_parsed_line e (combatTime e) s)
      (statsP_process P hempty hattack habsorb htarget e
        (hdamage e (List.mem_cons_self _ _)) (combatTime e) s h)

/-- The by-source and by-target halves of the conservation invariant of a single
stats record. -/
def dealtInv (st : CombatantStats) : Prop :=
  sumValues st.damage_by_source_dealt = st.total_damage_dealt ∧
  sumValues st.damage_by_target_dealt = st.total_damage_dealt

/-- The by-type half of the conservation invariant of a single stats record. -/
def typeInv (st : CombatantStats) : Prop :=
  sumValues st.damage_by_type_dealt = st.total_damage_dealt

theorem applyAttackStats_dealt (st : CombatantStats) (r : String) (c : Bool) (ts : Nat) :
    (applyAttackStats st r c ts).total_damage_dealt = st.total_damage_dealt ∧
    (applyAttackStats st r c ts).damage_by_source_dealt = st.damage_by_source_dealt ∧
    (applyAttackStats st r c ts).damage_by_target_dealt = st.damage_by_target_dealt ∧
    (applyAttackStats st r c ts).damage_by_type_dealt = st.damage_by_type_dealt := by
  unfold applyAttackStats CombatantStats.update_action_time
  repeat' split
  all_goals simp

theorem applyAbsorb_dealt (st : CombatantStats) (a : Nat) (d : String) (ts : Nat) :
    (applyAbsorb st a d ts).total_damage_dealt = st.total_damage_dealt ∧
    (applyAbsorb st a d ts).damage_by_source_dealt = st.damage_by_source_dealt ∧
    (applyAbsorb st a d ts).damage_by_target_dealt = st.damage_by_target_dealt ∧
    (applyAbsorb st a d ts).damage_by_type_dealt = st.damage_by_type_dealt := by
  unfold applyAbsorb CombatantStats.update_action_time
  simp

theorem applyTargetDamage_dealt (st : CombatantStats) (a f : String) (total : Nat) (bd : DMap)
    (ts : Nat) :
    (applyTargetDamage st a f total bd ts).total_damage_dealt = st.total_damage_dealt ∧
    (applyTargetDamage st a f total bd ts).damage_by_source_dealt = st.damage_by_source_dealt ∧
    (applyTargetDamage st a f total bd ts).damage_by_target_dealt = st.damage_by_target_dealt ∧
    (applyTargetDamage st a f total bd ts).damage_by_type_dealt = st.damage_by_type_dealt := by
  unfold applyTargetDamage CombatantStats.update_action_time
  simp

theorem applyAttackerDamage_dealtInv (st : CombatantStats) (t f d : String) (crit wb : Bool)
    (total : Nat) (bd : DMap) (ts : Nat) (h : dealtInv st) :
    dealtInv (applyAttackerDamage st t f d crit wb total bd ts) := by
  constructor
  · show sumValues (bump st.damage_by_source_dealt f total) = st.total_damage_dealt + total
    rw [sumValues_bump, h.1]
  · show sumValues (bump st.damage_by_target_dealt t total) = st.total_damage_dealt + total
    rw [sumValues_bump, h.2]

theorem applyAttackerDamage_typeInv (st : CombatantStats) (t f d : String) (crit wb : Bool)
    (total : Nat) (bd : DMap) (ts : Nat) (hbd : sumValues bd = total) (h : typeInv st) :
    typeInv (applyAttackerDamage st t f d crit wb total bd ts) := by
  show sumValues (mergeInto st.damage_by_type_dealt bd) = st.total_damage_dealt + total
  rw [sumValues_mergeInto, h, hbd]

theorem dealtInv_processLog (events : List ParsedLine) :
    ∀ i name, dealtInv (getStats (processLog events initState) i name) := by
  apply statsP_processLog dealtInv
  · exact ⟨rfl, rfl⟩
  · intro st r c ts h
    obtain ⟨e1, e2, e3, e4⟩ := applyAttackStats_dealt st r c ts
    exact ⟨by rw [e2, e1]; exact h.1, by rw [e3, e1]; exact h.2⟩
  · intro st a d ts h
    obtain ⟨e1, e2, e3, e4⟩ := applyAbsorb_dealt st a d ts
    exact ⟨by rw [e2, e1]; exact h.1, by rw [e3, e1]; exact h.2⟩
  · intro st a f total bd ts h
    obtain ⟨e1, e2, e3, e4⟩ := applyTargetDamage_dealt st a f total bd ts
    exact ⟨by rw [e2, e1]; exact h.1, by rw [e3, e1]; exact h.2⟩
  · intro e he st t f d crit wb a tgt total bd ts2 ts3 heq h
    exact applyAttackerDamage_dealtInv st t f d crit wb total bd ts2 h
  · intro i name
    exact ⟨rfl, rfl⟩

theorem typeInv_processLog (events : List ParsedLine)
    (hall : ∀ e ∈ events, ∀ a tgt total bd ts, e = ParsedLine.Damage a tgt total bd ts →
      sumValues bd = total) :
    ∀ i name, typeInv (getStats (processLog events initState) i name) := by
  apply statsP_processLog typeInv
  · exact rfl
  · intro st r c ts h
    obtain ⟨e1, e2, e3, e4⟩ := applyAttackStats_dealt st r c ts
    show sumValues _ = _
    rw [e4, e1]; exact h
  · intro st a d ts h
    obtain ⟨e1, e2, e3, e4⟩ := applyAbsorb_dealt st a d ts
    show sumValues _ = _
    rw [e4, e1]; exact h
  · intro st a f total bd ts h
    obtain ⟨e1, e2, e3, e4⟩ := applyTargetDamage_dealt st a f total bd ts
    show sumValues _ = _
    rw [e4, e1]; exact h
  · intro e he st t f d crit wb a tgt total bd ts2 ts3 heq h
    exact applyAttackerDamage_typeInv st t f d crit wb total bd ts2
      (hall e he a tgt total bd ts3 heq) h
  · intro i name
    exact rfl

/-- C1 (as stated, refuted): processing the single parsed Damage line
(attacker "A", target "B", reported total 10, per-type breakdown Fire 5 only)
produces a CombatantStats record whose damage_by_type_dealt values sum to 5
while total_damage_dealt is 10, so the by-type decomposition does not hold for
a damage event whose reported total differs from the sum of its breakdown. -/
theorem C1_claim_counterexample :
    sumValues (getStats (processLog [ParsedLine.Damage "A" "B" 10 [("Fire", 5)] 100] initState)
        1 "A").damage_by_type_dealt ≠
      (getStats (processLog [ParsedLine.Damage "A" "B" 10 [("Fire", 5)] 100] initState)
        1 "A").total_damage_dealt := by decide

/-- C1 (amended): after processing any sequence of parsed lines, every
CombatantStats record in every encounter satisfies the by-source and by-target
decompositions of total_damage_dealt unconditionally, and the by-type
decomposition provided every processed Damage event's reported total equals the
sum of its per-type breakdown. -/
theorem C1_conservation_amended (events : List ParsedLine) :
    (∀ i name,
      sumValues (getStats (processLog events initState) i name).damage_by_source_dealt =
          (getStats (processLog events initState) i name).total_damage_dealt ∧
        sumValues (getStats (processLog events initState) i name).damage_by_target_dealt =
          (getStats (processLog events initState) i name).total_damage_dealt) ∧
    ((∀ e ∈ events, ∀ a tgt total bd ts, e = ParsedLine.Damage a tgt total bd ts →
        sumValues bd = total) →
      ∀ i name,
        sumValues (getStats (processLog events initState) i name).damage_by_type_dealt =
          (getStats (processLog events initState) i name).total_damage_dealt) :=
  ⟨fun i name => dealtInv_processLog events i name,
   fun hall i name => typeInv_processLog events hall i name⟩

/-- Witness for C1: the amended conservation theorem applied to one concrete
two-type damage event whose total matches its breakdown sum. -/
theorem C1_conservation_amended_witness :
    sumValues (getStats (processLog
        [ParsedLine.Damage "A" "B" 7 [("Fire", 4), ("Physical", 3)] 100] initState)
        1 "A").damage_by_type_dealt =
      (getStats (processLog
        [ParsedLine.Damage "A" "B" 7 [("Fire", 4), ("Physical", 3)] 100] initState)
        1 "A").total_damage_dealt ∧
    sumValues (getStats (processLog
        [ParsedLine.Damage "A" "B" 7 [("Fire", 4), ("Physical", 3)] 100] initState)
        1 "A").damage_by_source_dealt =
      (getStats (processLog
        [ParsedLine.Damage "A" "B" 7 [("Fire", 4), ("Physical", 3)] 100] initState)
        1 "A").total_damage_dealt :=
  ⟨(C1_conservation_amended
      [ParsedLine.Damage "A" "B" 7 [("Fire", 4), ("Physical", 3)] 100]).2
    (by
      intro e he a tgt total bd ts heq
      simp only [List.mem_singleton] at he
      subst he
      cases heq
      decide) 1 "A",
   ((C1_conservation_amended
      [ParsedLine.Damage "A" "B" 7 [("Fire", 4), ("Physical", 3)] 100]).1 1 "A").1⟩

/-- The administrative variants: routed to the player-registry/buff-tracker
collaborators and returned early by process_parsed_line. -/
def isAdministrative : ParsedLine → Bool
  | .PlayerJoin .. => true
  | .PlayerChat .. => true
  | .PartyChat .. => true
  | .PartyJoin .. => true
  | .Resting .. => true
  | .BuffExpired .. => true
  | _ => false

theorem process_admin (e : ParsedLine) (ct : Nat) (s : ProcState)
    (h : isAdministrative e = true) : process_parsed_line e ct s = s := by
  cases e <;> first | rfl | simp [isAdministrative] at h

theorem process_eq_dispatch (e : ParsedLine) (ct : Nat) (s : ProcState)
    (h : isAdministrative e = false) :
    process_parsed_line e ct s = dispatchEvent e ct (segmentEncounter e ct s) := by
  cases e <;> first | rfl | simp [isAdministrative] at h

theorem dispatchEvent_frame (p : ParsedLine) (ct : Nat) (s : ProcState) :
    (dispatchEvent p ct s).encounter_counter = s.encounter_counter ∧
    (dispatchEvent p ct s).current_encounter = s.current_encounter ∧
    ∀ i, ((dispatchEvent p ct s).encounters i).isSome = (s.encounters i).isSome := by
  unfold dispatchEvent
  split
  · exact ⟨rfl, rfl, fun i => rfl⟩
  · rename_i id heq
    split
    · exact ⟨rfl, rfl, fun i => rfl⟩
    · rename_i enc henc
      split
      all_goals refine ⟨rfl, rfl, fun i => ?_⟩
      all_goals try rfl
      all_goals
        unfold updEnc
        rcases eq_or_ne i id with hi | hi
        · simp [hi, henc]
        · simp [hi]

theorem segment_eq_self (e : ParsedLine) (ct : Nat) (s : ProcState)
    (hupd : shouldUpdateCombatTime e = false)
    (hcur : s.current_encounter.isNone = false) : segmentEncounter e ct s = s := by
  unfold segmentEncounter shouldStartNew
  rw [hupd, hcur]
  simp

theorem shouldStartNew_none (e : ParsedLine) (ct : Nat) (s : ProcState)
    (hcur : s.current_encounter = none) : shouldStartNew e ct s = true := by
  unfold shouldStartNew
  rw [hcur]
  split <;> simp

theorem segment_start (e : ParsedLine) (ct : Nat) (s : ProcState)
    (h : shouldStartNew e ct s = true) :
    (segmentEncounter e ct s).encounter_counter = s.encounter_counter + 1 ∧
    (segmentEncounter e ct s).current_encounter = some s.encounter_counter := by
  unfold segmentEncounter
  rw [h]
  simp only [if_true]
  split <;> exact ⟨rfl, rfl⟩

/-- C9 (as stated, refuted): processing an Attack event from the initial state,
where no encounter is active, allocates a new encounter from the counter, so a
non-positive-damage event can change the encounter set and the counter. -/
theorem C9_claim_counterexample :
    (process_parsed_line (ParsedLine.Attack "A" "B" "hit" false 50) 50
        initState).encounter_counter ≠ initState.encounter_counter := by decide

/-- C9 (amended): while an encounter is active, an event that is not a
positive-total Damage event (shouldUpdateCombatTime is false: Attack, Save,
SpellResist, Casting, Absorb, zero-total Damage, administrative) never changes
the encounter counter, the current-encounter id, or the set of existing
encounter ids; but when no encounter is active, any non-administrative event
allocates the next id from the monotonic counter. -/
theorem C9_boundary_amended (e : ParsedLine) (ct : Nat) (s : ProcState) :
    (shouldUpdateCombatTime e = false →
      ∀ id, s.current_encounter = some id →
        (process_parsed_line e ct s).encounter_counter = s.encounter_counter ∧
        (process_parsed_line e ct s).current_encounter = s.current_encounter ∧
        ∀ i, ((process_parsed_line e ct s).encounters i).isSome = (s.encounters i).isSome) ∧
    (isAdministrative e = false → s.current_encounter = none →
      (process_parsed_line e ct s).encounter_counter = s.encounter_counter + 1 ∧
      (process_parsed_line e ct s).current_encounter = some s.encounter_counter) := by
  constructor
  · intro hupd id hcur
    cases hadm : isAdministrative e with
    | true => rw [process_admin e ct s hadm]; exact ⟨rfl, rfl, fun i => rfl⟩
    | false =>
      rw [process_eq_dispatch e ct s hadm]
      have hseg : segmentEncounter e ct s = s :=
        segment_eq_self e ct s hupd (by rw [hcur]; rfl)
      rw [hseg]
      exact dispatchEvent_frame e ct s
  · intro hadm hcur
    rw [process_eq_dispatch e ct s hadm]
    obtain ⟨hc, hcur2, hiso⟩ := dispatchEvent_frame e ct (segmentEncounter e ct s)
    obtain ⟨hc2, hcur3⟩ := segment_start e ct s (shouldStartNew_none e ct s hcur)
    exact ⟨by rw [hc, hc2], by rw [hcur2, hcur3]⟩

/-- Witness for C9: a Save event while encounter 1 is active leaves the counter
unchanged, and an Attack event from the initial state allocates id 1 from the
counter. -/
theorem C9_boundary_amended_witness :
    (process_parsed_line (ParsedLine.Save "B" "Will" "magic" "success" 105) 105
        (processLog [ParsedLine.Damage "A" "B" 5 [("Physical", 5)] 100] initState)).encounter_counter =
      (processLog [ParsedLine.Damage "A" "B" 5 [("Physical", 5)] 100] initState).encounter_counter ∧
    (process_parsed_line (ParsedLine.Attack "A" "B" "hit" false 50) 50
        initState).encounter_counter = initState.encounter_counter + 1 :=
  ⟨((C9_boundary_amended (ParsedLine.Save "B" "Will" "magic" "success" 105) 105
      (processLog [ParsedLine.Damage "A" "B" 5 [("Physical", 5)] 100] initState)).1
    (by decide) 1 (by decide)).1,
   ((C9_boundary_amended (ParsedLine.Attack "A" "B" "hit" false 50) 50 initState).2
    (by decide) rfl).1⟩

/-- A well-formedness fact used by C10: whenever the current-encounter id is set,
the table holds an encounter for it (the id was just inserted, and encounters
are never removed). -/
def currentConsistent (s : ProcState) : Prop :=
  ∀ id, s.current_encounter = some id → (s.encounters id).isSome = true

/-- C10: processing any Attack event, whatever its result and whatever its
attacker and target, leaves the pending-spell collection empty (the branch
clears it before recording the attack), so no pending spell survives an
intervening attack roll. -/
theorem C10_attack_clears_spells (s : ProcState) (attacker target result : String)
    (concealment : Bool) (ts ct : Nat) (hcons : currentConsistent s) :
    (process_parsed_line (ParsedLine.Attack attacker target result concealment ts)
      ct s).pending_spells = [] := by
  cases hc : s.current_encounter with
  | none =>
    simp [process_parsed_line, dispatchEvent, segmentEncounter, shouldStartNew,
      shouldUpdateCombatTime, startNewEncounter, updEnc, hc]
  | some id =>
    have henc := hcons id hc
    cases he : s.encounters id with
    | none => rw [he] at henc; cases henc
    | some enc =>
      have hseg : segmentEncounter (ParsedLine.Attack attacker target result concealment ts)
          ct s = s :=
        segment_eq_self _ ct s rfl (by rw [hc]; rfl)
      show (dispatchEvent _ ct (segmentEncounter _ ct s)).pending_spells = []
      rw [hseg]
      simp [dispatchEvent, hc, he]

/-- Witness for C10: an Attack processed from the initial state (vacuously
consistent) leaves no pending spells. -/
theorem C10_attack_clears_spells_witness :
    (process_parsed_line (ParsedLine.Attack "A" "B" "hit" false 50) 50
      initState).pending_spells = [] :=
  C10_attack_clears_spells initState "A" "B" "hit" false 50 50 (fun id h => by cases h)

theorem spellResistCtxLoop_pending (target spell : String) (ct : Nat)
    (ctxs : List SpellContext) (r : List SpellContext × PendingSpell)
    (h : spellResistCtxLoop target spell ct ctxs = some r) :
    r.2.target = target ∧ r.2.spell = spell := by
  induction ctxs generalizing r with
  | nil => cases h
  | cons c t ih =>
    unfold spellResistCtxLoop at h
    split at h
    · cases h; exact ⟨rfl, rfl⟩
    · cases hrec : spellResistCtxLoop target spell ct t with
      | none => rw [hrec] at h; cases h
      | some r' =>
        rw [hrec] at h
        simp only [Option.map_some'] at h
        cases h
        exact ih r' hrec

/-- C8 (as stated, refuted): a SpellResist for the long-duration spell
"Magic Missile" empties the pending-spell collection (which held one entry from
the preceding Fireball resist) instead of leaving it in place. -/
theorem C8_claim_counterexample :
    (processLog [ParsedLine.Damage "A" "B" 5 [("Physical", 5)] 100,
        ParsedLine.SpellResist "B" "Fireball" "failed" 101]
      initState).pending_spells.length = 1 ∧
    (process_parsed_line (ParsedLine.SpellResist "C" "Magic Missile" "failed" 102) 102
        (processLog [ParsedLine.Damage "A" "B" 5 [("Physical", 5)] 100,
          ParsedLine.SpellResist "B" "Fireball" "failed" 101] initState)).pending_spells = [] := by
  constructor
  · decide
  · decide

/-- C8 (amended): while an encounter is active, a SpellResist for a spell not on
the long-duration allow-list empties the pending-spell collection and then adds
exactly one new entry for its target and spell, leaving the long-duration
collection unchanged; a SpellResist for a long-duration spell also empties the
pending-spell collection, leaves every existing long-duration entry in place,
and appends exactly one new independent long-duration entry for its target. -/
theorem C8_spell_resist_amended (s : ProcState) (target spell res : String) (ts ct : Nat)
    (id : Nat) (hcur : s.current_encounter = some id)
    (henc : (s.encounters id).isSome = true) :
    (is_long_duration_spell spell = false →
      ∃ ps : PendingSpell,
        (process_parsed_line (ParsedLine.SpellResist target spell res ts) ct
          s).pending_spells = [ps] ∧
        ps.target = target ∧ ps.spell = spell ∧
        (process_parsed_line (ParsedLine.SpellResist target spell res ts) ct
          s).long_duration_spells = s.long_duration_spells) ∧
    (is_long_duration_spell spell = true →
      (process_parsed_line (ParsedLine.SpellResist target spell res ts) ct
        s).pending_spells = [] ∧
      (process_parsed_line (ParsedLine.SpellResist target spell res ts) ct
        s).long_duration_spells = s.long_duration_spells ++
          [{ caster := "Unknown Caster", target := target, spell := spell, timestamp := ct,
             had_save_roll := false, had_damage_immunity := false }]) := by
  have hseg : segmentEncounter (ParsedLine.SpellResist target spell res ts) ct s = s :=
    segment_eq_self _ ct s rfl (by rw [hcur]; rfl)
  cases he : s.encounters id with
  | none => rw [he] at henc; cases henc
  | some enc =>
    have hps : (process_parsed_line (ParsedLine.SpellResist target spell res ts) ct
        s).pending_spells =
        (processSpellResist target spell ct s.spell_contexts s.long_duration_spells).2.1 := by
      show (dispatchEvent _ ct (segmentEncounter _ ct s)).pending_spells = _
      rw [hseg]
      simp [dispatchEvent, hcur, he]
    have hls : (process_parsed_line (ParsedLine.SpellResist target spell res ts) ct
        s).long_duration_spells =
        (processSpellResist target spell ct s.spell_contexts s.long_duration_spells).2.2 := by
      show (dispatchEvent _ ct (segmentEncounter _ ct s)).long_duration_spells = _
      rw [hseg]
      simp [dispatchEvent, hcur, he]
    constructor
    · intro hnl
      rw [hps, hls]
      unfold processSpellResist
      rw [hnl]
      simp only [Bool.false_eq_true, if_false]
      cases hloop : spellResistCtxLoop target spell ct s.spell_contexts with
      | none =>
        refine ⟨_, rfl, rfl, rfl, rfl⟩
      | some r =>
        obtain ⟨h1, h2⟩ := spellResistCtxLoop_pending target spell ct s.spell_contexts r hloop
        exact ⟨r.2, rfl, h1, h2, rfl⟩
    · intro hl
      rw [hps, hls]
      unfold processSpellResist
      rw [hl]
      simp only [if_true]
      cases hloop : longResistCtxLoop target spell s.spell_contexts with
      | none => exact ⟨rfl, rfl⟩
      | some ctxs => exact ⟨rfl, rfl⟩

/-- Witness for C8: concrete SpellResist events (a regular Fireball and a
long-duration Magic Missile) processed in a state with an active encounter. -/
theorem C8_spell_resist_amended_witness :
    (∃ ps : PendingSpell,
      (process_parsed_line (ParsedLine.SpellResist "B" "Fireball" "failed" 101) 101
        (processLog [ParsedLine.Damage "A" "B" 5 [("Physical", 5)] 100]
          initState)).pending_spells = [ps] ∧
      ps.target = "B" ∧ ps.spell = "Fireball" ∧
      (process_parsed_line (ParsedLine.SpellResist "B" "Fireball" "failed" 101) 101
        (processLog [ParsedLine.Damage "A" "B" 5 [("Physical", 5)] 100]
          initState)).long_duration_spells =
        (processLog [ParsedLine.Damage "A" "B" 5 [("Physical", 5)] 100]
          initState).long_duration_spells) ∧
    (process_parsed_line (ParsedLine.SpellResist "B" "Magic Missile" "failed" 101) 101
      (processLog [ParsedLine.Damage "A" "B" 5 [("Physical", 5)] 100]
        initState)).pending_spells = [] :=
  ⟨(C8_spell_resist_amended
      (processLog [ParsedLine.Damage "A" "B" 5 [("Physical", 5)] 100] initState)
      "B" "Fireball" "failed" 101 101 1 (by decide) (by decide)).1 (by decide),
   ((C8_spell_resist_amended
      (processLog [ParsedLine.Damage "A" "B" 5 [("Physical", 5)] 100] initState)
      "B" "Magic Missile" "failed" 101 101 1 (by decide) (by decide)).2 (by decide)).1⟩

theorem findWithIdx_spec {α : Type} (p : α → Bool) (l : List α) (i : Nat) (x : α)
    (h : findWithIdx p l = some (i, x)) : l[i]? = some x ∧ p x = true := by
  induction l generalizing i with
  | nil => cases h
  | cons a t ih =>
    unfold findWithIdx at h
    split at h
    · cases h
      exact ⟨by simp, by assumption⟩
    · cases hrec : findWithIdx p t with
      | none => rw [hrec] at h; cases h
      | some q =>
        rw [hrec] at h
        simp only [Option.map_some'] at h
        cases h
        obtain ⟨h1, h2⟩ := ih q.1 hrec
        exact ⟨by simpa using h1, h2⟩

theorem findWithIdx_ne_nil {α : Type} (p : α → Bool) (l : List α) (r : Nat × α)
    (h : findWithIdx p l = some r) : l ≠ [] := by
  intro he
  subst he
  cases h

theorem count_eraseIdx_of_getElem {α : Type} [DecidableEq α] (l : List α) (i : Nat) (a : α)
    (h : l[i]? = some a) : (l.eraseIdx i).count a + 1 = l.count a := by
  induction l generalizing i with
  | nil => cases h
  | cons x t ih =>
    cases i with
    | zero =>
      simp only [List.getElem?_cons_zero, Option.some_inj] at h
      subst h
      simp [List.eraseIdx, List.count_cons]
    | succ n =>
      simp only [List.getElem?_cons_succ] at h
      simp only [List.eraseIdx, List.count_cons]
      have := ih n h
      omega

theorem oldestAttack_spec (attacker target : String) (l : List PendingAttack) (j ts : Nat)
    (h : oldestAttack attacker target l = some (j, ts)) :
    ∃ a, l[j]? = some a ∧ a.timestamp = ts := by
  unfold oldestAttack at h
  simp only [Option.map_eq_some'] at h
  obtain ⟨idx, hidx, heq⟩ := h
  cases heq
  have key : ∀ (base : List (Nat × PendingAttack)), (∀ iv ∈ base, l[iv.1]? = some iv.2) →
      ∀ (acc : Option Nat × Nat),
        (∀ k, acc.1 = some k → ∃ a, l[k]? = some a ∧ a.timestamp = acc.2) →
      ∀ k,
        (List.foldl
          (fun acc iv =>
            if iv.2.attacker == attacker && iv.2.target == target && iv.2.timestamp < acc.2
            then (some iv.1, iv.2.timestamp) else acc) acc base).1 = some k →
        ∃ a, l[k]? = some a ∧ a.timestamp =
          (List.foldl
            (fun acc iv =>
              if iv.2.attacker == attacker && iv.2.target == target && iv.2.timestamp < acc.2
              then (some iv.1, iv.2.timestamp) else acc) acc base).2 := by
    intro base
    induction base with
    | nil => intro _ acc hacc k hk; exact hacc k hk
    | cons iv rest ih =>
      intro hbase acc hacc k
      simp only [List.foldl_cons]
      apply ih (fun p hp => hbase p (List.mem_cons_of_mem _ hp))
      intro k2 hk2
      revert hk2
      split
      · intro hk2
        simp only [Option.some_inj] at hk2
        subst hk2
        exact ⟨iv.2, hbase iv (List.mem_cons_self _ _), rfl⟩
      · exact hacc k2
  refine key l.enum ?_ ((none : Option Nat), 18446744073709551615)
    (fun k hk => by cases hk) j hidx
  intro iv hmem
  have hmem2 : (iv.1, iv.2) ∈ l.enum := by simpa using hmem
  exact List.mk_mem_enum_iff_getElem?.mp hmem2

/-- C4: a Damage whose breakdown is exactly one Fire entry, with at least one
pending attack alive (after 3s expiry) and no pending spell and no matching
long-duration spell, is attributed as source "Attack" with the weapon-buff flag,
and the attribution leaves the pending-attack collection untouched (beyond the
expiry filter), so the attack stays available to a later damage line. -/
theorem C4_weapon_buff (attacker target : String) (bd : DMap) (ct : Nat)
    (ctxs : List SpellContext) (attacks : List PendingAttack)
    (spells : List PendingSpell) (longs : List LongDurationSpell)
    (hbd : ∃ v, bd = [("Fire", v)])
    (hnolong : (longs.filter (fun sp => ct - sp.timestamp ≤ 6)).find?
        (longMatches attacker target bd) = none)
    (hatt : attacks.filter (fun a => ct - a.timestamp ≤ 3) ≠ [])
    (hsp : spells = []) :
    (attributeDamage attacker target bd ct ctxs attacks spells longs).damage_source = "Attack" ∧
    (attributeDamage attacker target bd ct ctxs attacks spells longs).is_weapon_buff_damage
      = true ∧
    (attributeDamage attacker target bd ct ctxs attacks spells longs).is_from_crit = false ∧
    (attributeDamage attacker target bd ct ctxs attacks spells longs).pending_attacks =
      attacks.filter (fun a => ct - a.timestamp ≤ 3) ∧
    (attributeDamage attacker target bd ct ctxs attacks spells longs).pending_spells
      = spells := by
  obtain ⟨v, rfl⟩ := hbd
  subst hsp
  have hemp : (attacks.filter (fun a => ct - a.timestamp ≤ 3)).isEmpty = false := by
    cases hemp : (attacks.filter (fun a => ct - a.timestamp ≤ 3)).isEmpty
    · rfl
    · exact absurd (List.isEmpty_iff.mp hemp) hatt
  simp only [attributeDamage]
  rw [hnolong]
  simp only [attributeStep2, findWithIdx]
  rw [hemp]
  simp [containsKey]

/-- Witness for C4: the pending attack at t = 10 for (A, B) with the Fire 5 damage
line at t = 11 and no pending spell: source "Attack", weapon-buff flag set, and
the pending attack still present afterwards. -/
theorem C4_weapon_buff_witness :
    (attributeDamage "A" "B" [("Fire", 5)] 11 []
      [{ attacker := "A", target := "B", timestamp := 10, is_crit := false }] []
      []).damage_source = "Attack" ∧
    (attributeDamage "A" "B" [("Fire", 5)] 11 []
      [{ attacker := "A", target := "B", timestamp := 10, is_crit := false }] []
      []).is_weapon_buff_damage = true ∧
    (attributeDamage "A" "B" [("Fire", 5)] 11 []
      [{ attacker := "A", target := "B", timestamp := 10, is_crit := false }] []
      []).pending_attacks =
      [{ attacker := "A", target := "B", timestamp := 10, is_crit := false }] := by
  have h := C4_weapon_buff "A" "B" [("Fire", 5)] 11 []
    [{ attacker := "A", target := "B", timestamp := 10, is_crit := false }] [] []
    ⟨5, rfl⟩ (by decide) (by decide) rfl
  exact ⟨h.1, h.2.1, by rw [h.2.2.2.1]; decide⟩

/-- C5: a long-duration entry whose spell has a fixed expected damage type
(Flame Arrow is Fire, Ball Lightning is Electrical, the missile spells are
Magical) matches a damage line exactly when caster and target match and the
breakdown is a single entry of that exact type; in particular a Magical-only
spell never matches the mixed breakdown Magical 5 + Physical 3; entries without
a fixed type match any breakdown once caster and target match; and when no
long-duration entry matches, the attribution falls through to the
pending-attack/pending-spell/Unknown path (attributeStep2). -/
theorem C5_long_duration_exclusive :
    (get_spell_damage_type "Flame Arrow" = some "Fire" ∧
     get_spell_damage_type "Ball Lightning" = some "Electrical" ∧
     get_spell_damage_type "Isaac's Greater Missile Storm" = some "Magical" ∧
     get_spell_damage_type "Isaac's Lesser Missile Storm" = some "Magical" ∧
     get_spell_damage_type "Magic Missile" = some "Magical") ∧
    (∀ (sp : LongDurationSpell) (attacker target ty : String) (bd : DMap),
      get_spell_damage_type sp.spell = some ty →
      (longMatches attacker target bd sp = true ↔
        ((sp.caster = attacker ∨ sp.caster = "Unknown Caster") ∧ sp.target = target ∧
          bd.length = 1 ∧ containsKey bd ty = true))) ∧
    (∀ (sp : LongDurationSpell) (attacker target : String),
      get_spell_damage_type sp.spell = some "Magical" →
      longMatches attacker target [("Magical", 5), ("Physical", 3)] sp = false) ∧
    (∀ (sp : LongDurationSpell) (attacker target : String) (bd : DMap),
      get_spell_damage_type sp.spell = none →
      (longMatches attacker target bd sp = true ↔
        ((sp.caster = attacker ∨ sp.caster = "Unknown Caster") ∧ sp.target = target))) ∧
    (∀ (attacker target : String) (bd : DMap) (ct : Nat) (ctxs : List SpellContext)
        (attacks : List PendingAttack) (spells : List PendingSpell)
        (longs : List LongDurationSpell),
      (longs.filter (fun sp => ct - sp.timestamp ≤ 6)).find?
          (longMatches attacker target bd) = none →
      attributeDamage attacker target bd ct ctxs attacks spells longs =
        attributeStep2 attacker target bd ctxs
          (attacks.filter (fun a => ct - a.timestamp ≤ 3)) spells
          (longs.filter (fun sp => ct - sp.timestamp ≤ 6))) := by
  refine ⟨⟨rfl, rfl, rfl, rfl, rfl⟩, ?_, ?_, ?_, ?_⟩
  · intro sp attacker target ty bd hty
    unfold longMatches
    rw [hty]
    cases hcm : ((sp.caster == attacker || sp.caster == "Unknown Caster") &&
        (sp.target == target))
    · simp only [hcm, Bool.not_false, if_true]
      constructor
      · intro h; cases h
      · intro ⟨h1, h2, _⟩
        rw [Bool.and_eq_false_iff] at hcm
        rcases hcm with hcm | hcm
        · rw [Bool.or_eq_false_iff] at hcm
          rcases h1 with h1 | h1 <;> simp [h1] at hcm
        · simp [h2] at hcm
    · simp only [hcm, Bool.not_true, Bool.false_eq_true, if_false]
      rw [Bool.and_eq_true] at hcm
      obtain ⟨hcm1, hcm2⟩ := hcm
      rw [Bool.or_eq_true] at hcm1
      simp only [beq_iff_eq] at hcm1 hcm2
      constructor
      · intro h
        rw [Bool.and_eq_true] at h
        exact ⟨hcm1, hcm2, by simpa using h.1, h.2⟩
      · intro ⟨_, _, h3, h4⟩
        rw [Bool.and_eq_true]
        exact ⟨by simpa using h3, h4⟩
  · intro sp attacker target hty
    unfold longMatches
    rw [hty]
    cases hcm : ((sp.caster == attacker || sp.caster == "Unknown Caster") &&
        (sp.target == target))
    · simp [hcm]
    · simp [hcm]
  · intro sp attacker target bd hty
    unfold longMatches
    rw [hty]
    cases hcm : ((sp.caster == attacker || sp.caster == "Unknown Caster") &&
        (sp.target == target))
    · simp only [hcm, Bool.not_false, if_true]
      constructor
      · intro h; cases h
      · intro ⟨h1, h2⟩
        rw [Bool.and_eq_false_iff] at hcm
        rcases hcm with hcm | hcm
        · rw [Bool.or_eq_false_iff] at hcm
          rcases h1 with h1 | h1 <;> simp [h1] at hcm
        · simp [h2] at hcm
    · simp only [hcm, Bool.not_true, Bool.false_eq_true, if_false]
      rw [Bool.and_eq_true] at hcm
      obtain ⟨hcm1, hcm2⟩ := hcm
      rw [Bool.or_eq_true] at hcm1
      simp only [beq_iff_eq] at hcm1 hcm2
      simp [hcm1, hcm2]
  · intro attacker target bd ct ctxs attacks spells longs hnolong
    simp only [attributeDamage]
    rw [hnolong]

/-- Witness for C5: the Magical-expecting Magic Missile entry does not match the
mixed Magical 5 + Physical 3 breakdown, does match the pure Magical one, and a
damage line with no matching long-duration entry is attributed by the step-2
path. -/
theorem C5_long_duration_exclusive_witness :
    longMatches "A" "B" [("Magical", 5), ("Physical", 3)]
      { caster := "A", target := "B", spell := "Magic Missile", timestamp := 10,
        had_save_roll := false, had_damage_immunity := false } = false ∧
    longMatches "A" "B" [("Magical", 5)]
      { caster := "A", target := "B", spell := "Magic Missile", timestamp := 10,
        had_save_roll := false, had_damage_immunity := false } = true ∧
    attributeDamage "A" "B" [("Magical", 5), ("Physical", 3)] 11 [] [] []
      [{ caster := "A", target := "B", spell := "Magic Missile", timestamp := 10,
         had_save_roll := false, had_damage_immunity := false }] =
      attributeStep2 "A" "B" [("Magical", 5), ("Physical", 3)] [] [] []
        [{ caster := "A", target := "B", spell := "Magic Missile", timestamp := 10,
           had_save_roll := false, had_damage_immunity := false }] := by
  refine ⟨C5_long_duration_exclusive.2.2.1
      { caster := "A", target := "B", spell := "Magic Missile", timestamp := 10,
        had_save_roll := false, had_damage_immunity := false } "A" "B" rfl, ?_, ?_⟩
  · exact (C5_long_duration_exclusive.2.1
      { caster := "A", target := "B", spell := "Magic Missile", timestamp := 10,
        had_save_roll := false, had_damage_immunity := false }
      "A" "B" "Magical" [("Magical", 5)] rfl).mpr
      ⟨Or.inl rfl, rfl, by decide, by decide⟩
  · have := C5_long_duration_exclusive.2.2.2.2 "A" "B" [("Magical", 5), ("Physical", 3)] 11
      [] [] []
      [{ caster := "A", target := "B", spell := "Magic Missile", timestamp := 10,
         had_save_roll := false, had_damage_immunity := false }] (by decide)
    rw [this]
    decide

/-- C7 (as stated, refuted): with a pending spell and a pending attack for the
same pair, both at timestamp 10, no flags set and a Physical breakdown, the
damage at t = 11 is attributed to the spell, not the attack: the code compares
with spell.timestamp <= attack_timestamp, so equal timestamps prefer the spell. -/
theorem C7_claim_counterexample :
    (attributeDamage "A" "B" [("Physical", 5)] 11 []
      [{ attacker := "A", target := "B", timestamp := 10, is_crit := false }]
      [{ caster := "A", target := "B", spell := "Fireball", timestamp := 10,
         had_save_roll := false, had_damage_immunity := false }] []).damage_source ≠
      "Attack" ∧
    (attributeDamage "A" "B" [("Physical", 5)] 11 []
      [{ attacker := "A", target := "B", timestamp := 10, is_crit := false }]
      [{ caster := "A", target := "B", spell := "Fireball", timestamp := 10,
         had_save_roll := false, had_damage_immunity := false }] []).damage_source =
      "Spell: Fireball" := by
  constructor
  · decide
  · decide

theorem findPair_ne_nil (attacker target : String) (spells : List PendingSpell)
    (r : Nat × PendingSpell)
    (h : (match findWithIdx (fun spell =>
          (spell.caster == attacker || spell.caster == "Unknown Caster") &&
          spell.target == target && (spell.had_save_roll || spell.had_damage_immunity))
          spells with
        | some x => some x
        | none => findWithIdx (fun spell =>
            (spell.caster == attacker || spell.caster == "Unknown Caster") &&
            spell.target == target) spells) = some r) :
    spells.isEmpty = false := by
  cases spells with
  | nil => cases h
  | cons a t => rfl

/-- C7 (amended): when both a pending-spell candidate and a pending-attack
candidate exist (and no long-duration entry matches; the spell candidate rules
out the weapon-buff short-circuit), the spell is chosen exactly when it has
hadSaveRoll or hadDamageImmunity set, or its timestamp is less than OR EQUAL TO
the attack timestamp, or the breakdown has no Physical entry; otherwise the
attack is chosen.  At equal timestamps the spell, not the attack, is preferred. -/
theorem C7_spell_vs_attack_amended (attacker target : String) (bd : DMap) (ct : Nat)
    (ctxs : List SpellContext) (attacks : List PendingAttack) (spells : List PendingSpell)
    (longs : List LongDurationSpell) (i : Nat) (sp : PendingSpell) (j ats : Nat)
    (hnolong : (longs.filter (fun sq => ct - sq.timestamp ≤ 6)).find?
        (longMatches attacker target bd) = none)
    (hsp : (match findWithIdx (fun spell =>
          (spell.caster == attacker || spell.caster == "Unknown Caster") &&
          spell.target == target && (spell.had_save_roll || spell.had_damage_immunity))
          spells with
        | some x => some x
        | none => findWithIdx (fun spell =>
            (spell.caster == attacker || spell.caster == "Unknown Caster") &&
            spell.target == target) spells) = some (i, sp))
    (hat : oldestAttack attacker target (attacks.filter (fun a => ct - a.timestamp ≤ 3)) =
      some (j, ats)) :
    ((sp.had_save_roll = true ∨ sp.had_damage_immunity = true ∨ sp.timestamp ≤ ats ∨
        containsKey bd "Physical" = false) →
      (attributeDamage attacker target bd ct ctxs attacks spells longs).damage_source =
        "Spell: " ++ sp.spell ∧
      (attributeDamage attacker target bd ct ctxs attacks spells longs).pending_spells =
        spells.eraseIdx i) ∧
    (¬(sp.had_save_roll = true ∨ sp.had_damage_immunity = true ∨ sp.timestamp ≤ ats ∨
        containsKey bd "Physical" = false) →
      (attributeDamage attacker target bd ct ctxs attacks spells longs).damage_source =
        "Attack" ∧
      (attributeDamage attacker target bd ct ctxs attacks spells longs).pending_attacks =
        (attacks.filter (fun a => ct - a.timestamp ≤ 3)).eraseIdx j) := by
  have hne := findPair_ne_nil attacker target spells (i, sp) hsp
  simp only [attributeDamage]
  rw [hnolong]
  simp only [attributeStep2]
  rw [hsp, hat, hne]
  simp only [Bool.and_false, Bool.false_eq_true, if_false]
  constructor
  · intro hcond
    have hb : (sp.had_save_roll || sp.had_damage_immunity ||
        decide (sp.timestamp ≤ ats) || !(containsKey bd "Physical")) = true := by
      rcases hcond with h | h | h | h <;> simp [h]
    rw [hb, if_pos rfl]
    exact ⟨rfl, rfl⟩
  · intro hcond
    push_neg at hcond
    obtain ⟨h1, h2, h3, h4⟩ := hcond
    have hb : (sp.had_save_roll || sp.had_damage_immunity ||
        decide (sp.timestamp ≤ ats) || !(containsKey bd "Physical")) = false := by
      simp only [Bool.or_eq_false_iff]
      refine ⟨⟨⟨by simpa using h1, by simpa using h2⟩, by simpa using h3⟩, ?_⟩
      simp only [Bool.not_eq_false']
      cases hck : containsKey bd "Physical"
      · exact absurd hck h4
      · rfl
    rw [hb]
    simp only [Bool.false_eq_true, if_false]
    exact ⟨trivial, trivial⟩

/-- Witness for C7: both candidates at timestamp 10, no flags, Physical
breakdown; the spell wins by the less-or-equal comparison. -/
theorem C7_spell_vs_attack_amended_witness :
    (attributeDamage "A" "B" [("Physical", 5)] 11 []
      [{ attacker := "A", target := "B", timestamp := 10, is_crit := false }]
      [{ caster := "A", target := "B", spell := "Fireball", timestamp := 10,
         had_save_roll := false, had_damage_immunity := false }] []).damage_source =
      "Spell: " ++ "Fireball" :=
  ((C7_spell_vs_attack_amended "A" "B" [("Physical", 5)] 11 []
      [{ attacker := "A", target := "B", timestamp := 10, is_crit := false }]
      [{ caster := "A", target := "B", spell := "Fireball", timestamp := 10,
         had_save_roll := false, had_damage_immunity := false }] [] 0
      { caster := "A", target := "B", spell := "Fireball", timestamp := 10,
        had_save_roll := false, had_damage_immunity := false } 0 10
      (by decide) (by decide) (by decide)).1
    (Or.inr (Or.inr (Or.inl (by decide))))).1

/-- C6: every damage attribution either consumes nothing (leaving the filtered
pending attacks and the pending spells untouched: the Unknown, weapon-buff and
long-duration paths), or removes exactly the chosen pending-spell entry, or
removes exactly the chosen pending-attack entry; the removed entry's multiset
count drops by one, so it cannot be chosen by a later damage event. -/
theorem C6_one_shot_consumption (attacker target : String) (bd : DMap) (ct : Nat)
    (ctxs : List SpellContext) (attacks : List PendingAttack)
    (spells : List PendingSpell) (longs : List LongDurationSpell) :
    ((attributeDamage attacker target bd ct ctxs attacks spells longs).pending_spells =
        spells ∧
      (attributeDamage attacker target bd ct ctxs attacks spells longs).pending_attacks =
        attacks.filter (fun a => ct - a.timestamp ≤ 3)) ∨
    (∃ i sp, spells[i]? = some sp ∧
      (attributeDamage attacker target bd ct ctxs attacks spells longs).damage_source =
        "Spell: " ++ sp.spell ∧
      (attributeDamage attacker target bd ct ctxs attacks spells longs).pending_spells =
        spells.eraseIdx i ∧
      (attributeDamage attacker target bd ct ctxs attacks spells longs).pending_attacks =
        attacks.filter (fun a => ct - a.timestamp ≤ 3) ∧
      (spells.eraseIdx i).count sp + 1 = spells.count sp) ∨
    (∃ j a, (attacks.filter (fun a => ct - a.timestamp ≤ 3))[j]? = some a ∧
      (attributeDamage attacker target bd ct ctxs attacks spells longs).damage_source =
        "Attack" ∧
      (attributeDamage attacker target bd ct ctxs attacks spells longs).pending_attacks =
        (attacks.filter (fun a => ct - a.timestamp ≤ 3)).eraseIdx j ∧
      (attributeDamage attacker target bd ct ctxs attacks spells longs).pending_spells =
        spells ∧
      ((attacks.filter (fun a => ct - a.timestamp ≤ 3)).eraseIdx j).count a + 1 =
        (attacks.filter (fun a => ct - a.timestamp ≤ 3)).count a) := by
  simp only [attributeDamage]
  cases hfind : (longs.filter (fun spell => ct - spell.timestamp ≤ 6)).find?
      (longMatches attacker target bd) with
  | some long_spell =>
    cases hcu : long_spell.caster == "Unknown Caster" with
    | false =>
      simp only [hcu, Bool.false_eq_true, if_false]
      exact Or.inl ⟨trivial, trivial⟩
    | true =>
      simp only [hcu, if_true]
      exact Or.inl ⟨trivial, trivial⟩
  | none =>
    simp only [attributeStep2]
    split
    · exact Or.inl ⟨rfl, rfl⟩
    · rename_i hwb
      split
      · rename_i spell_idx spell attack_idx attack_timestamp hosp hoat
        have hget : spells[spell_idx]? = some spell := by
          revert hosp
          cases hA : findWithIdx (fun spell =>
              (spell.caster == attacker || spell.caster == "Unknown Caster") &&
              spell.target == target &&
              (spell.had_save_roll || spell.had_damage_immunity)) spells with
          | some q =>
            intro hosp
            cases hosp
            exact (findWithIdx_spec _ _ _ _ hA).1
          | none =>
            intro hosp
            exact (findWithIdx_spec _ _ _ _ hosp).1
        split
        · exact Or.inr (Or.inl ⟨spell_idx, spell, hget, rfl, rfl, rfl,
            count_eraseIdx_of_getElem _ _ _ hget⟩)
        · obtain ⟨a, hga, hts⟩ := oldestAttack_spec attacker target _ _ _ hoat
          exact Or.inr (Or.inr ⟨attack_idx, a, hga, rfl, rfl, rfl,
            count_eraseIdx_of_getElem _ _ _ hga⟩)
      · rename_i spell_idx spell hosp hoat
        have hget : spells[spell_idx]? = some spell := by
          revert hosp
          cases hA : findWithIdx (fun spell =>
              (spell.caster == attacker || spell.caster == "Unknown Caster") &&
              spell.target == target &&
              (spell.had_save_roll || spell.had_damage_immunity)) spells with
          | some q =>
            intro hosp
            cases hosp
            exact (findWithIdx_spec _ _ _ _ hA).1
          | none =>
            intro hosp
            exact (findWithIdx_spec _ _ _ _ hosp).1
        exact Or.inr (Or.inl ⟨spell_idx, spell, hget, rfl, rfl, rfl,
          count_eraseIdx_of_getElem _ _ _ hget⟩)
      · rename_i attack_idx attack_timestamp hosp hoat
        split
        · obtain ⟨a, hga, hts⟩ := oldestAttack_spec attacker target _ _ _ hoat
          exact Or.inr (Or.inr ⟨attack_idx, a, hga, rfl, rfl, rfl,
            count_eraseIdx_of_getElem _ _ _ hga⟩)
        · exact Or.inl ⟨rfl, rfl⟩
      · exact Or.inl ⟨rfl, rfl⟩

theorem dispatchEvent_frame2 (p : ParsedLine) (ct : Nat) (s : ProcState) :
    (dispatchEvent p ct s).encounter_counter = s.encounter_counter ∧
    (dispatchEvent p ct s).current_encounter = s.current_encounter ∧
    (dispatchEvent p ct s).last_combat_time = s.last_combat_time ∧
    ∀ i, s.current_encounter ≠ some i → (dispatchEvent p ct s).encounters i = s.encounters i := by
  unfold dispatchEvent
  split
  · exact ⟨rfl, rfl, rfl, fun i _ => rfl⟩
  · rename_i id heq
    split
    · exact ⟨rfl, rfl, rfl, fun i _ => rfl⟩
    · rename_i enc henc
      split
      all_goals refine ⟨rfl, rfl, rfl, fun i hi => ?_⟩
      all_goals try rfl
      all_goals
        unfold updEnc
        have hne : i ≠ id := by
          intro hii
          subst hii
          exact hi heq
        simp [hne]

theorem segment_start_full (e : ParsedLine) (ct : Nat) (s : ProcState)
    (h : shouldStartNew e ct s = true) :
    (segmentEncounter e ct s).encounter_counter = s.encounter_counter + 1 ∧
    (segmentEncounter e ct s).current_encounter = some s.encounter_counter ∧
    (segmentEncounter e ct s).encounters s.encounter_counter =
      some (Encounter.new s.encounter_counter ct) ∧
    ∀ i, i ≠ s.encounter_counter → (segmentEncounter e ct s).encounters i = s.encounters i := by
  unfold segmentEncounter
  rw [h]
  simp only [if_true]
  split
  all_goals
    refine ⟨rfl, rfl, ?_, fun i hi => ?_⟩
    · show updEnc s.encounters s.encounter_counter _ s.encounter_counter = _
      unfold updEnc
      simp
    · show updEnc s.encounters s.encounter_counter _ i = _
      unfold updEnc
      simp [hi]

theorem segment_no_start_full (e : ParsedLine) (ct : Nat) (s : ProcState)
    (h : shouldStartNew e ct s = false) :
    (segmentEncounter e ct s).encounter_counter = s.encounter_counter ∧
    (segmentEncounter e ct s).current_encounter = s.current_encounter ∧
    (segmentEncounter e ct s).encounters = s.encounters := by
  unfold segmentEncounter
  rw [h]
  simp only [Bool.false_eq_true, if_false]
  split
  · exact ⟨rfl, rfl, rfl⟩
  · exact ⟨rfl, rfl, rfl⟩

theorem segment_last_upd (e : ParsedLine) (ct : Nat) (s : ProcState)
    (h : shouldUpdateCombatTime e = true) :
    (segmentEncounter e ct s).last_combat_time = ct := by
  unfold segmentEncounter
  rw [h]
  simp only [if_true]

theorem dispatch_damage_total (a t : String) (total : Nat) (bd : DMap) (ts ct : Nat)
    (s : ProcState) (id : Nat) (enc : Encounter)
    (hcur : s.current_encounter = some id) (henc : s.encounters id = some enc)
    (hsplit : splitSummon a.data = none) (hne : a ≠ t) :
    (getStats (dispatchEvent (ParsedLine.Damage a t total bd ts) ct s) id a).total_damage_dealt =
      (enc.stats a).total_damage_dealt + total := by
  unfold dispatchEvent
  simp only [hcur, henc, summonSplit, hsplit]
  unfold getStats
  show (getStatsT (updEnc s.encounters id _) id a).total_damage_dealt = _
  rw [getStatsT_updEnc]
  rw [if_pos rfl]
  rw [updateStats_stats, if_neg hne, updateStats_stats, if_pos rfl]
  rfl

theorem damage_step (a t : String) (total : Nat) (bd : DMap) (ts : Nat) (s : ProcState)
    (hpos : 0 < total) (hsplit : splitSummon a.data = none) (hne : a ≠ t) :
    (shouldStartNew (ParsedLine.Damage a t total bd ts) ts s = true →
      (process_parsed_line (ParsedLine.Damage a t total bd ts) ts s).encounter_counter =
        s.encounter_counter + 1 ∧
      (process_parsed_line (ParsedLine.Damage a t total bd ts) ts s).current_encounter =
        some s.encounter_counter ∧
      (process_parsed_line (ParsedLine.Damage a t total bd ts) ts s).last_combat_time = ts ∧
      ((process_parsed_line (ParsedLine.Damage a t total bd ts) ts
          s).encounters s.encounter_counter).isSome = true ∧
      (getStats (process_parsed_line (ParsedLine.Damage a t total bd ts) ts s)
          s.encounter_counter a).total_damage_dealt = total ∧
      ∀ i, i ≠ s.encounter_counter →
        (process_parsed_line (ParsedLine.Damage a t total bd ts) ts s).encounters i =
          s.encounters i) ∧
    (shouldStartNew (ParsedLine.Damage a t total bd ts) ts s = false →
      ∀ id, s.current_encounter = some id → ∀ enc, s.encounters id = some enc →
      (process_parsed_line (ParsedLine.Damage a t total bd ts) ts s).encounter_counter =
        s.encounter_counter ∧
      (process_parsed_line (ParsedLine.Damage a t total bd ts) ts s).current_encounter =
        some id ∧
      (process_parsed_line (ParsedLine.Damage a t total bd ts) ts s).last_combat_time = ts ∧
      ((process_parsed_line (ParsedLine.Damage a t total bd ts) ts
          s).encounters id).isSome = true ∧
      (getStats (process_parsed_line (ParsedLine.Damage a t total bd ts) ts s)
          id a).total_damage_dealt = (enc.stats a).total_damage_dealt + total ∧
      ∀ i, i ≠ id →
        (process_parsed_line (ParsedLine.Damage a t total bd ts) ts s).encounters i =
          s.encounters i) := by
  have hupd : shouldUpdateCombatTime (ParsedLine.Damage a t total bd ts) = true := by
    simp only [shouldUpdateCombatTime]
    exact decide_eq_true hpos
  have hpr : process_parsed_line (ParsedLine.Damage a t total bd ts) ts s =
      dispatchEvent (ParsedLine.Damage a t total bd ts) ts
        (segmentEncounter (ParsedLine.Damage a t total bd ts) ts s) := rfl
  constructor
  · intro hstart
    obtain ⟨hc, hcur, hins, hother⟩ :=
      segment_start_full (ParsedLine.Damage a t total bd ts) ts s hstart
    have hlast := segment_last_upd (ParsedLine.Damage a t total bd ts) ts s hupd
    obtain ⟨fc, fcur, flast, fother⟩ := dispatchEvent_frame2
      (ParsedLine.Damage a t total bd ts) ts
      (segmentEncounter (ParsedLine.Damage a t total bd ts) ts s)
    obtain ⟨_, _, fiso⟩ := dispatchEvent_frame (ParsedLine.Damage a t total bd ts) ts
      (segmentEncounter (ParsedLine.Damage a t total bd ts) ts s)
    rw [hpr]
    refine ⟨by rw [fc, hc], by rw [fcur, hcur], by rw [flast, hlast], ?_, ?_, ?_⟩
    · rw [fiso, hins]
      rfl
    · have := dispatch_damage_total a t total bd ts ts
        (segmentEncounter (ParsedLine.Damage a t total bd ts) ts s)
        s.encounter_counter (Encounter.new s.encounter_counter ts) hcur hins hsplit hne
      rw [this]
      show CombatantStats.empty.total_damage_dealt + total = total
      simp [CombatantStats.empty]
    · intro i hi
      rw [fother i (by rw [hcur]; intro hx; cases hx; exact hi rfl), hother i hi]
  · intro hstart id hcurid enc hencid
    obtain ⟨hc, hcur, hencs⟩ :=
      segment_no_start_full (ParsedLine.Damage a t total bd ts) ts s hstart
    have hlast := segment_last_upd (ParsedLine.Damage a t total bd ts) ts s hupd
    have hcur2 : (segmentEncounter (ParsedLine.Damage a t total bd ts) ts
        s).current_encounter = some id := by rw [hcur, hcurid]
    have henc2 : (segmentEncounter (ParsedLine.Damage a t total bd ts) ts
        s).encounters id = some enc := by rw [hencs, hencid]
    obtain ⟨fc, fcur, flast, fother⟩ := dispatchEvent_frame2
      (ParsedLine.Damage a t total bd ts) ts
      (segmentEncounter (ParsedLine.Damage a t total bd ts) ts s)
    obtain ⟨_, _, fiso⟩ := dispatchEvent_frame (ParsedLine.Damage a t total bd ts) ts
      (segmentEncounter (ParsedLine.Damage a t total bd ts) ts s)
    rw [hpr]
    refine ⟨by rw [fc, hc], by rw [fcur, hcur2], by rw [flast, hlast], ?_, ?_, ?_⟩
    · rw [fiso, henc2]
      rfl
    · exact dispatch_damage_total a t total bd ts ts _ id enc hcur2 henc2 hsplit hne
    · intro i hi
      rw [fother i (by rw [hcur2]; intro hx; cases hx; exact hi rfl), hencs]

/-- C3: the 100/103/112 scenario produces exactly two encounters (ids 1 and 2
from the counter that starts at 1), the first holding the damage of the first
two events and the second the damage of the third; and in general a
positive-total damage event starts a new encounter, taking the next id from the
monotonic counter, exactly when no encounter is active or its timestamp exceeds
the last positive-damage timestamp by strictly more than 6 seconds. -/
theorem C3_encounter_boundaries (t1 t2 t3 : Nat) (bd1 bd2 bd3 : DMap)
    (h1 : 0 < t1) (h2 : 0 < t2) (h3 : 0 < t3) :
    ((processLog [ParsedLine.Damage "A" "B" t1 bd1 100, ParsedLine.Damage "A" "B" t2 bd2 103,
        ParsedLine.Damage "A" "B" t3 bd3 112] initState).encounter_counter = 3 ∧
     ((processLog [ParsedLine.Damage "A" "B" t1 bd1 100, ParsedLine.Damage "A" "B" t2 bd2 103,
        ParsedLine.Damage "A" "B" t3 bd3 112] initState).encounters 1).isSome = true ∧
     ((processLog [ParsedLine.Damage "A" "B" t1 bd1 100, ParsedLine.Damage "A" "B" t2 bd2 103,
        ParsedLine.Damage "A" "B" t3 bd3 112] initState).encounters 2).isSome = true ∧
     (∀ i, i ≠ 1 → i ≠ 2 →
       (processLog [ParsedLine.Damage "A" "B" t1 bd1 100, ParsedLine.Damage "A" "B" t2 bd2 103,
         ParsedLine.Damage "A" "B" t3 bd3 112] initState).encounters i = none) ∧
     (getStats (processLog [ParsedLine.Damage "A" "B" t1 bd1 100,
        ParsedLine.Damage "A" "B" t2 bd2 103, ParsedLine.Damage "A" "B" t3 bd3 112]
        initState) 1 "A").total_damage_dealt = t1 + t2 ∧
     (getStats (processLog [ParsedLine.Damage "A" "B" t1 bd1 100,
        ParsedLine.Damage "A" "B" t2 bd2 103, ParsedLine.Damage "A" "B" t3 bd3 112]
        initState) 2 "A").total_damage_dealt = t3) ∧
    (∀ (s : ProcState) (a t : String) (total : Nat) (bd : DMap) (ts : Nat), 0 < total →
      (((process_parsed_line (ParsedLine.Damage a t total bd ts) ts s).encounter_counter =
          s.encounter_counter + 1 ∧
        (process_parsed_line (ParsedLine.Damage a t total bd ts) ts s).current_encounter =
          some s.encounter_counter) ↔
        (s.current_encounter = none ∨ s.last_combat_time + 6 < ts))) := by
  constructor
  · have hpr : processLog [ParsedLine.Damage "A" "B" t1 bd1 100,
        ParsedLine.Damage "A" "B" t2 bd2 103, ParsedLine.Damage "A" "B" t3 bd3 112]
        initState =
        process_parsed_line (ParsedLine.Damage "A" "B" t3 bd3 112) 112
          (process_parsed_line (ParsedLine.Damage "A" "B" t2 bd2 103) 103
            (process_parsed_line (ParsedLine.Damage "A" "B" t1 bd1 100) 100 initState)) := rfl
    rw [hpr]
    obtain ⟨a1, b1, c1, d1, e1t, f1⟩ :=
      (damage_step "A" "B" t1 bd1 100 initState h1 (by decide) (by decide)).1
        (shouldStartNew_none _ 100 initState rfl)
    have a1' : (process_parsed_line (ParsedLine.Damage "A" "B" t1 bd1 100) 100
        initState).encounter_counter = 2 := a1
    have b1' : (process_parsed_line (ParsedLine.Damage "A" "B" t1 bd1 100) 100
        initState).current_encounter = some 1 := b1
    obtain ⟨enc1, henc1⟩ : ∃ enc, (process_parsed_line (ParsedLine.Damage "A" "B" t1 bd1 100)
        100 initState).encounters 1 = some enc := by
      cases hx : (process_parsed_line (ParsedLine.Damage "A" "B" t1 bd1 100) 100
          initState).encounters 1 with
      | none =>
        have d1' : ((process_parsed_line (ParsedLine.Damage "A" "B" t1 bd1 100) 100
            initState).encounters 1).isSome = true := d1
        rw [hx] at d1'
        cases d1'
      | some enc => exact ⟨enc, rfl⟩
    have henc1t : (enc1.stats "A").total_damage_dealt = t1 := by
      have e1t' : (getStats (process_parsed_line (ParsedLine.Damage "A" "B" t1 bd1 100) 100
          initState) 1 "A").total_damage_dealt = t1 := e1t
      unfold getStats getStatsT at e1t'
      rw [henc1] at e1t'
      exact e1t'
    have hsn2 : shouldStartNew (ParsedLine.Damage "A" "B" t2 bd2 103) 103
        (process_parsed_line (ParsedLine.Damage "A" "B" t1 bd1 100) 100 initState) = false := by
      unfold shouldStartNew
      rw [if_pos (show shouldUpdateCombatTime (ParsedLine.Damage "A" "B" t2 bd2 103) = true by
        exact decide_eq_true h2)]
      rw [b1', c1]
      decide
    obtain ⟨a2, b2, c2, d2, e2t, f2⟩ :=
      (damage_step "A" "B" t2 bd2 103
        (process_parsed_line (ParsedLine.Damage "A" "B" t1 bd1 100) 100 initState)
        h2 (by decide) (by decide)).2 hsn2 1 b1' enc1 henc1
    have a2' : (process_parsed_line (ParsedLine.Damage "A" "B" t2 bd2 103)
        (combatTime (ParsedLine.Damage "A" "B" t2 bd2 103))
        (process_parsed_line (ParsedLine.Damage "A" "B" t1 bd1 100) 100
          initState)).encounter_counter = 2 := by
      show (process_parsed_line (ParsedLine.Damage "A" "B" t2 bd2 103) 103 _).encounter_counter
        = 2
      rw [a2, a1']
    have hsn3 : shouldStartNew (ParsedLine.Damage "A" "B" t3 bd3 112) 112
        (process_parsed_line (ParsedLine.Damage "A" "B" t2 bd2 103) 103
          (process_parsed_line (ParsedLine.Damage "A" "B" t1 bd1 100) 100 initState))
        = true := by
      unfold shouldStartNew
      rw [if_pos (show shouldUpdateCombatTime (ParsedLine.Damage "A" "B" t3 bd3 112) = true by
        exact decide_eq_true h3)]
      rw [b2, c2]
      decide
    obtain ⟨a3, b3, c3, d3, e3t, f3⟩ :=
      (damage_step "A" "B" t3 bd3 112
        (process_parsed_line (ParsedLine.Damage "A" "B" t2 bd2 103) 103
          (process_parsed_line (ParsedLine.Damage "A" "B" t1 bd1 100) 100 initState))
        h3 (by decide) (by decide)).1 hsn3
    have hcnt2 : (process_parsed_line (ParsedLine.Damage "A" "B" t2 bd2 103) 103
        (process_parsed_line (ParsedLine.Damage "A" "B" t1 bd1 100) 100
          initState)).encounter_counter = 2 := by rw [a2, a1']
    refine ⟨?_, ?_, ?_, ?_, ?_, ?_⟩
    · rw [a3, hcnt2]
    · rw [f3 1 (by rw [hcnt2]; decide)]
      exact d2
    · have := d3
      rw [hcnt2] at this
      exact this
    · intro i hi1 hi2
      rw [f3 i (by rw [hcnt2]; exact hi2), f2 i hi1, f1 i hi1]
      rfl
    · have hgs : getStats (process_parsed_line (ParsedLine.Damage "A" "B" t3 bd3 112) 112
          (process_parsed_line (ParsedLine.Damage "A" "B" t2 bd2 103) 103
            (process_parsed_line (ParsedLine.Damage "A" "B" t1 bd1 100) 100 initState)))
          1 "A" =
        getStats (process_parsed_line (ParsedLine.Damage "A" "B" t2 bd2 103) 103
          (process_parsed_line (ParsedLine.Damage "A" "B" t1 bd1 100) 100 initState))
          1 "A" := by
        unfold getStats getStatsT
        rw [f3 1 (by rw [hcnt2]; decide)]
      rw [hgs, e2t, henc1t]
    · have := e3t
      rw [hcnt2] at this
      exact this
  · intro s a t total bd ts hpos
    have hupd : shouldUpdateCombatTime (ParsedLine.Damage a t total bd ts) = true := by
      simp only [shouldUpdateCombatTime]
      exact decide_eq_true hpos
    have hpr : process_parsed_line (ParsedLine.Damage a t total bd ts) ts s =
        dispatchEvent (ParsedLine.Damage a t total bd ts) ts
          (segmentEncounter (ParsedLine.Damage a t total bd ts) ts s) := rfl
    obtain ⟨fc, fcur, _, _⟩ := dispatchEvent_frame2 (ParsedLine.Damage a t total bd ts) ts
      (segmentEncounter (ParsedLine.Damage a t total bd ts) ts s)
    rw [hpr]
    cases hsn : shouldStartNew (ParsedLine.Damage a t total bd ts) ts s with
    | true =>
      obtain ⟨hc, hcur, _, _⟩ := segment_start_full _ ts s hsn
      constructor
      · intro _
        revert hsn
        unfold shouldStartNew
        rw [if_pos hupd]
        cases hcs : s.current_encounter with
        | none => intro _; exact Or.inl rfl
        | some id =>
          simp only [Option.isNone_some, Bool.false_or, Bool.and_eq_true, decide_eq_true_eq]
          intro hp
          exact Or.inr (by omega)
      · intro _
        exact ⟨by rw [fc, hc], by rw [fcur, hcur]⟩
    | false =>
      obtain ⟨hc, hcur, _⟩ := segment_no_start_full _ ts s hsn
      constructor
      · intro hcnt
        rw [fc, hc] at hcnt
        omega
      · intro hrhs
        exfalso
        revert hsn
        unfold shouldStartNew
        rw [if_pos hupd]
        rcases hrhs with hnone | hgap
        · rw [hnone]
          simp
        · cases hcs : s.current_encounter with
          | none => simp
          | some id =>
            simp only [Option.isNone_some, Bool.false_or]
            rw [decide_eq_true (show s.last_combat_time < ts by omega),
              decide_eq_true (show 6 < ts - s.last_combat_time by omega)]
            simp

/-- Witness for C3: the scenario with concrete totals 5, 6, 7 and singleton
Physical breakdowns gives two encounters with totals 11 and 7, and the general
boundary rule applied to the initial state. -/
theorem C3_encounter_boundaries_witness :
    (processLog [ParsedLine.Damage "A" "B" 5 [("Physical", 5)] 100,
      ParsedLine.Damage "A" "B" 6 [("Physical", 6)] 103,
      ParsedLine.Damage "A" "B" 7 [("Physical", 7)] 112]
      initState).encounter_counter = 3 ∧
    (getStats (processLog [ParsedLine.Damage "A" "B" 5 [("Physical", 5)] 100,
      ParsedLine.Damage "A" "B" 6 [("Physical", 6)] 103,
      ParsedLine.Damage "A" "B" 7 [("Physical", 7)] 112]
      initState) 1 "A").total_damage_dealt = 5 + 6 :=
  ⟨((C3_encounter_boundaries 5 6 7 [("Physical", 5)] [("Physical", 6)] [("Physical", 7)]
      (by decide) (by decide) (by decide)).1).1,
   (C3_encounter_boundaries 5 6 7 [("Physical", 5)] [("Physical", 6)] [("Physical", 7)]
      (by decide) (by decide) (by decide)).1.2.2.2.2.1⟩

theorem look1_merge_assoc (x y z : DMap) (hy : wf1 y) (hz : wf1 z) (k : String) :
    look1 (mergeInto x (mergeInto y z)) k = look1 (mergeInto (mergeInto x y) z) k := by
  rw [look1_mergeInto _ _ (wf1_mergeInto y z hy), look1_mergeInto _ _ hz,
      look1_mergeInto _ _ hz, look1_mergeInto _ _ hy]
  omega

theorem look1_merge_comm (x y : DMap) (hx : wf1 x) (hy : wf1 y) (k : String) :
    look1 (mergeInto x y) k = look1 (mergeInto y x) k := by
  rw [look1_mergeInto _ _ hy, look1_mergeInto _ _ hx]
  omega

theorem look2_merge_assoc (x y z : DMap2) (hy : wf2 y) (hz : wf2 z) (k1 k2 : String) :
    look2 (merge2 x (merge2 y z)) k1 k2 = look2 (merge2 (merge2 x y) z) k1 k2 := by
  rw [look2_merge2 _ _ (wf2_merge2 y z hy), look2_merge2 _ _ hz,
      look2_merge2 _ _ hz, look2_merge2 _ _ hy]
  omega

theorem look2_merge_comm (x y : DMap2) (hx : wf2 x) (hy : wf2 y) (k1 k2 : String) :
    look2 (merge2 x y) k1 k2 = look2 (merge2 y x) k1 k2 := by
  rw [look2_merge2 _ _ hy, look2_merge2 _ _ hx]
  omega

theorem look3_merge_assoc (x y z : DMap3) (hy : wf3 y) (hz : wf3 z) (k1 k2 k3 : String) :
    look3 (merge3 x (merge3 y z)) k1 k2 k3 = look3 (merge3 (merge3 x y) z) k1 k2 k3 := by
  rw [look3_merge3 _ _ (wf3_merge3 y z hy), look3_merge3 _ _ hz,
      look3_merge3 _ _ hz, look3_merge3 _ _ hy]
  omega

theorem look3_merge_comm (x y : DMap3) (hx : wf3 x) (hy : wf3 y) (k1 k2 k3 : String) :
    look3 (merge3 x y) k1 k2 k3 = look3 (merge3 y x) k1 k2 k3 := by
  rw [look3_merge3 _ _ hy, look3_merge3 _ _ hx]
  omega

/-- Content equality of two CombatantStats records, field by field: numeric and
time fields equal, map fields equal as key-to-value functions at every level
(the equality a Rust HashMap comparison observes). -/
structure StatsEquiv (x y : CombatantStats) : Prop where
  hits_eq : x.hits = y.hits
  misses_eq : x.misses = y.misses
  critical_hits_eq : x.critical_hits = y.critical_hits
  concealment_dodges_eq : x.concealment_dodges = y.concealment_dodges
  weapon_buffs_eq : x.weapon_buffs = y.weapon_buffs
  total_damage_dealt_eq : x.total_damage_dealt = y.total_damage_dealt
  hit_damage_eq : x.hit_damage = y.hit_damage
  crit_damage_eq : x.crit_damage = y.crit_damage
  weapon_buff_damage_eq : x.weapon_buff_damage = y.weapon_buff_damage
  times_attacked_eq : x.times_attacked = y.times_attacked
  total_damage_received_eq : x.total_damage_received = y.total_damage_received
  total_damage_absorbed_eq : x.total_damage_absorbed = y.total_damage_absorbed
  damage_by_type_dealt_eq : ∀ k, look1 x.damage_by_type_dealt k = look1 y.damage_by_type_dealt k
  hit_damage_by_type_eq : ∀ k, look1 x.hit_damage_by_type k = look1 y.hit_damage_by_type k
  crit_damage_by_type_eq : ∀ k, look1 x.crit_damage_by_type k = look1 y.crit_damage_by_type k
  weapon_buff_damage_by_type_eq :
    ∀ k, look1 x.weapon_buff_damage_by_type k = look1 y.weapon_buff_damage_by_type k
  damage_by_source_dealt_eq :
    ∀ k, look1 x.damage_by_source_dealt k = look1 y.damage_by_source_dealt k
  damage_by_target_dealt_eq :
    ∀ k, look1 x.damage_by_target_dealt k = look1 y.damage_by_target_dealt k
  damage_by_type_received_eq :
    ∀ k, look1 x.damage_by_type_received k = look1 y.damage_by_type_received k
  damage_by_source_received_eq :
    ∀ k, look1 x.damage_by_source_received k = look1 y.damage_by_source_received k
  damage_by_attacker_received_eq :
    ∀ k, look1 x.damage_by_attacker_received k = look1 y.damage_by_attacker_received k
  absorbed_by_type_eq : ∀ k, look1 x.absorbed_by_type k = look1 y.absorbed_by_type k
  damage_by_source_and_type_dealt_eq : ∀ k1 k2,
    look2 x.damage_by_source_and_type_dealt k1 k2 = look2 y.damage_by_source_and_type_dealt k1 k2
  damage_by_target_and_source_dealt_eq : ∀ k1 k2,
    look2 x.damage_by_target_and_source_dealt k1 k2 =
      look2 y.damage_by_target_and_source_dealt k1 k2
  hit_damage_by_target_type_eq : ∀ k1 k2,
    look2 x.hit_damage_by_target_type k1 k2 = look2 y.hit_damage_by_target_type k1 k2
  crit_damage_by_target_type_eq : ∀ k1 k2,
    look2 x.crit_damage_by_target_type k1 k2 = look2 y.crit_damage_by_target_type k1 k2
  weapon_buff_damage_by_target_type_eq : ∀ k1 k2,
    look2 x.weapon_buff_damage_by_target_type k1 k2 =
      look2 y.weapon_buff_damage_by_target_type k1 k2
  damage_by_source_and_type_received_eq : ∀ k1 k2,
    look2 x.damage_by_source_and_type_received k1 k2 =
      look2 y.damage_by_source_and_type_received k1 k2
  damage_by_attacker_and_source_received_eq : ∀ k1 k2,
    look2 x.damage_by_attacker_and_source_received k1 k2 =
      look2 y.damage_by_attacker_and_source_received k1 k2
  damage_by_target_source_and_type_dealt_eq : ∀ k1 k2 k3,
    look3 x.damage_by_target_source_and_type_dealt k1 k2 k3 =
      look3 y.damage_by_target_source_and_type_dealt k1 k2 k3
  first_action_time_eq : x.first_action_time = y.first_action_time
  last_action_time_eq : x.last_action_time = y.last_action_time

/-- Content equality restricted to the fields aggregate_stats folds (everything
except concealment_dodges and damage_by_type_received). -/
structure StatsEquivAgg (x y : CombatantStats) : Prop where
  hits_eq : x.hits = y.hits
  misses_eq : x.misses = y.misses
  critical_hits_eq : x.critical_hits = y.critical_hits
  weapon_buffs_eq : x.weapon_buffs = y.weapon_buffs
  total_damage_dealt_eq : x.total_damage_dealt = y.total_damage_dealt
  hit_damage_eq : x.hit_damage = y.hit_damage
  crit_damage_eq : x.crit_damage = y.crit_damage
  weapon_buff_damage_eq : x.weapon_buff_damage = y.weapon_buff_damage
  times_attacked_eq : x.times_attacked = y.times_attacked
  total_damage_received_eq : x.total_damage_received = y.total_damage_received
  total_damage_absorbed_eq : x.total_damage_absorbed = y.total_damage_absorbed
  damage_by_type_dealt_eq : ∀ k, look1 x.damage_by_type_dealt k = look1 y.damage_by_type_dealt k
  hit_damage_by_type_eq : ∀ k, look1 x.hit_damage_by_type k = look1 y.hit_damage_by_type k
  crit_damage_by_type_eq : ∀ k, look1 x.crit_damage_by_type k = look1 y.crit_damage_by_type k
  weapon_buff_damage_by_type_eq :
    ∀ k, look1 x.weapon_buff_damage_by_type k = look1 y.weapon_buff_damage_by_type k
  damage_by_source_dealt_eq :
    ∀ k, look1 x.damage_by_source_dealt k = look1 y.damage_by_source_dealt k
  damage_by_target_dealt_eq :
    ∀ k, look1 x.damage_by_target_dealt k = look1 y.damage_by_target_dealt k
  damage_by_source_received_eq :
    ∀ k, look1 x.damage_by_source_received k = look1 y.damage_by_source_received k
  damage_by_attacker_received_eq :
    ∀ k, look1 x.damage_by_attacker_received k = look1 y.damage_by_attacker_received k
  absorbed_by_type_eq : ∀ k, look1 x.absorbed_by_type k = look1 y.absorbed_by_type k
  damage_by_source_and_type_dealt_eq : ∀ k1 k2,
    look2 x.damage_by_source_and_type_dealt k1 k2 = look2 y.damage_by_source_and_type_dealt k1 k2
  damage_by_target_and_source_dealt_eq : ∀ k1 k2,
    look2 x.damage_by_target_and_source_dealt k1 k2 =
      look2 y.damage_by_target_and_source_dealt k1 k2
  hit_damage_by_target_type_eq : ∀ k1 k2,
    look2 x.hit_damage_by_target_type k1 k2 = look2 y.hit_damage_by_target_type k1 k2
  crit_damage_by_target_type_eq : ∀ k1 k2,
    look2 x.crit_damage_by_target_type k1 k2 = look2 y.crit_damage_by_target_type k1 k2
  weapon_buff_damage_by_target_type_eq : ∀ k1 k2,
    look2 x.weapon_buff_damage_by_target_type k1 k2 =
      look2 y.weapon_buff_damage_by_target_type k1 k2
  damage_by_source_and_type_received_eq : ∀ k1 k2,
    look2 x.damage_by_source_and_type_received k1 k2 =
      look2 y.damage_by_source_and_type_received k1 k2
  damage_by_attacker_and_source_received_eq : ∀ k1 k2,
    look2 x.damage_by_attacker_and_source_received k1 k2 =
      look2 y.damage_by_attacker_and_source_received k1 k2
  damage_by_target_source_and_type_dealt_eq : ∀ k1 k2 k3,
    look3 x.damage_by_target_source_and_type_dealt k1 k2 k3 =
      look3 y.damage_by_target_source_and_type_dealt k1 k2 k3
  first_action_time_eq : x.first_action_time = y.first_action_time
  last_action_time_eq : x.last_action_time = y.last_action_time

/-- Key-uniqueness of every map field of a CombatantStats record (the intrinsic
shape of the Rust HashMaps). -/
def WFStats (x : CombatantStats) : Prop :=
  wf1 x.damage_by_type_dealt ∧ wf1 x.hit_damage_by_type ∧ wf1 x.crit_damage_by_type ∧
  wf1 x.weapon_buff_damage_by_type ∧ wf1 x.damage_by_source_dealt ∧
  wf1 x.damage_by_target_dealt ∧ wf1 x.damage_by_source_received ∧
  wf1 x.damage_by_attacker_received ∧ wf1 x.absorbed_by_type ∧
  wf2 x.damage_by_source_and_type_dealt ∧ wf2 x.damage_by_target_and_source_dealt ∧
  wf2 x.hit_damage_by_target_type ∧ wf2 x.crit_damage_by_target_type ∧
  wf2 x.weapon_buff_damage_by_target_type ∧ wf2 x.damage_by_source_and_type_received ∧
  wf2 x.damage_by_attacker_and_source_received ∧
  wf3 x.damage_by_target_source_and_type_dealt

instance : DecidablePred WFStats := fun x => by unfold WFStats; infer_instance

theorem aggregate_stats_assoc (a b c : CombatantStats) (hb : WFStats b) (hc : WFStats c) :
    StatsEquiv (aggregate_stats a (aggregate_stats b c))
      (aggregate_stats (aggregate_stats a b) c) := by
  obtain ⟨hb1, hb2, hb3, hb4, hb5, hb6, hb7, hb8, hb9, hb10, hb11, hb12, hb13, hb14, hb15,
    hb16, hb17⟩ := hb
  obtain ⟨hc1, hc2, hc3, hc4, hc5, hc6, hc7, hc8, hc9, hc10, hc11, hc12, hc13, hc14, hc15,
    hc16, hc17⟩ := hc
  constructor
  case hits_eq => simp only [aggregate_stats]; omega
  case misses_eq => simp only [aggregate_stats]; omega
  case critical_hits_eq => simp only [aggregate_stats]; omega
  case concealment_dodges_eq => simp only [aggregate_stats]
  case weapon_buffs_eq => simp only [aggregate_stats]; omega
  case total_damage_dealt_eq => simp only [aggregate_stats]; omega
  case hit_damage_eq => simp only [aggregate_stats]; omega
  case crit_damage_eq => simp only [aggregate_stats]; omega
  case weapon_buff_damage_eq => simp only [aggregate_stats]; omega
  case times_attacked_eq => simp only [aggregate_stats]; omega
  case total_damage_received_eq => simp only [aggregate_stats]; omega
  case total_damage_absorbed_eq => simp only [aggregate_stats]; omega
  case damage_by_type_dealt_eq => exact fun k => look1_merge_assoc _ _ _ hb1 hc1 k
  case hit_damage_by_type_eq => exact fun k => look1_merge_assoc _ _ _ hb2 hc2 k
  case crit_damage_by_type_eq => exact fun k => look1_merge_assoc _ _ _ hb3 hc3 k
  case weapon_buff_damage_by_type_eq => exact fun k => look1_merge_assoc _ _ _ hb4 hc4 k
  case damage_by_source_dealt_eq => exact fun k => look1_merge_assoc _ _ _ hb5 hc5 k
  case damage_by_target_dealt_eq => exact fun k => look1_merge_assoc _ _ _ hb6 hc6 k
  case damage_by_type_received_eq => exact fun k => rfl
  case damage_by_source_received_eq => exact fun k => look1_merge_assoc _ _ _ hb7 hc7 k
  case damage_by_attacker_received_eq => exact fun k => look1_merge_assoc _ _ _ hb8 hc8 k
  case absorbed_by_type_eq => exact fun k => look1_merge_assoc _ _ _ hb9 hc9 k
  case damage_by_source_and_type_dealt_eq =>
    exact fun k1 k2 => look2_merge_assoc _ _ _ hb10 hc10 k1 k2
  case damage_by_target_and_source_dealt_eq =>
    exact fun k1 k2 => look2_merge_assoc _ _ _ hb11 hc11 k1 k2
  case hit_damage_by_target_type_eq =>
    exact fun k1 k2 => look2_merge_assoc _ _ _ hb12 hc12 k1 k2
  case crit_damage_by_target_type_eq =>
    exact fun k1 k2 => look2_merge_assoc _ _ _ hb13 hc13 k1 k2
  case weapon_buff_damage_by_target_type_eq =>
    exact fun k1 k2 => look2_merge_assoc _ _ _ hb14 hc14 k1 k2
  case damage_by_source_and_type_received_eq =>
    exact fun k1 k2 => look2_merge_assoc _ _ _ hb15 hc15 k1 k2
  case damage_by_attacker_and_source_received_eq =>
    exact fun k1 k2 => look2_merge_assoc _ _ _ hb16 hc16 k1 k2
  case damage_by_target_source_and_type_dealt_eq =>
    exact fun k1 k2 k3 => look3_merge_assoc _ _ _ hb17 hc17 k1 k2 k3
  case first_action_time_eq => exact mergeFirstTime_assoc _ _ _
  case last_action_time_eq => exact mergeLastTime_assoc _ _ _

theorem aggregate_stats_comm (a b : CombatantStats) (ha : WFStats a) (hb : WFStats b) :
    StatsEquivAgg (aggregate_stats a b) (aggregate_stats b a) := by
  obtain ⟨ha1, ha2, ha3, ha4, ha5, ha6, ha7, ha8, ha9, ha10, ha11, ha12, ha13, ha14, ha15,
    ha16, ha17⟩ := ha
  obtain ⟨hb1, hb2, hb3, hb4, hb5, hb6, hb7, hb8, hb9, hb10, hb11, hb12, hb13, hb14, hb15,
    hb16, hb17⟩ := hb
  constructor
  case hits_eq => simp only [aggregate_stats]; omega
  case misses_eq => simp only [aggregate_stats]; omega
  case critical_hits_eq => simp only [aggregate_stats]; omega
  case weapon_buffs_eq => simp only [aggregate_stats]; omega
  case total_damage_dealt_eq => simp only [aggregate_stats]; omega
  case hit_damage_eq => simp only [aggregate_stats]; omega
  case crit_damage_eq => simp only [aggregate_stats]; omega
  case weapon_buff_damage_eq => simp only [aggregate_stats]; omega
  case times_attacked_eq => simp only [aggregate_stats]; omega
  case total_damage_received_eq => simp only [aggregate_stats]; omega
  case total_damage_absorbed_eq => simp only [aggregate_stats]; omega
  case damage_by_type_dealt_eq => exact fun k => look1_merge_comm _ _ ha1 hb1 k
  case hit_damage_by_type_eq => exact fun k => look1_merge_comm _ _ ha2 hb2 k
  case crit_damage_by_type_eq => exact fun k => look1_merge_comm _ _ ha3 hb3 k
  case weapon_buff_damage_by_type_eq => exact fun k => look1_merge_comm _ _ ha4 hb4 k
  case damage_by_source_dealt_eq => exact fun k => look1_merge_comm _ _ ha5 hb5 k
  case damage_by_target_dealt_eq => exact fun k => look1_merge_comm _ _ ha6 hb6 k
  case damage_by_source_received_eq => exact fun k => look1_merge_comm _ _ ha7 hb7 k
  case damage_by_attacker_received_eq => exact fun k => look1_merge_comm _ _ ha8 hb8 k
  case absorbed_by_type_eq => exact fun k => look1_merge_comm _ _ ha9 hb9 k
  case damage_by_source_and_type_dealt_eq =>
    exact fun k1 k2 => look2_merge_comm _ _ ha10 hb10 k1 k2
  case damage_by_target_and_source_dealt_eq =>
    exact fun k1 k2 => look2_merge_comm _ _ ha11 hb11 k1 k2
  case hit_damage_by_target_type_eq =>
    exact fun k1 k2 => look2_merge_comm _ _ ha12 hb12 k1 k2
  case crit_damage_by_target_type_eq =>
    exact fun k1 k2 => look2_merge_comm _ _ ha13 hb13 k1 k2
  case weapon_buff_damage_by_target_type_eq =>
    exact fun k1 k2 => look2_merge_comm _ _ ha14 hb14 k1 k2
  case damage_by_source_and_type_received_eq =>
    exact fun k1 k2 => look2_merge_comm _ _ ha15 hb15 k1 k2
  case damage_by_attacker_and_source_received_eq =>
    exact fun k1 k2 => look2_merge_comm _ _ ha16 hb16 k1 k2
  case damage_by_target_source_and_type_dealt_eq =>
    exact fun k1 k2 k3 => look3_merge_comm _ _ ha17 hb17 k1 k2 k3
  case first_action_time_eq => exact mergeFirstTime_comm _ _
  case last_action_time_eq => exact mergeLastTime_comm _ _

theorem aggregate_stats_rid (a : CombatantStats) : aggregate_stats a CombatantStats.empty = a := by
  simp only [aggregate_stats, CombatantStats.empty, mergeInto, merge2, merge3,
    mergeFirstTime, mergeLastTime, List.foldl_nil, Nat.add_zero]

theorem aggregate_stats_lid (a : CombatantStats) (ha : WFStats a) :
    StatsEquivAgg (aggregate_stats CombatantStats.empty a) a := by
  obtain ⟨ha1, ha2, ha3, ha4, ha5, ha6, ha7, ha8, ha9, ha10, ha11, ha12, ha13, ha14, ha15,
    ha16, ha17⟩ := ha
  constructor
  case hits_eq => simp only [aggregate_stats, CombatantStats.empty]; omega
  case misses_eq => simp only [aggregate_stats, CombatantStats.empty]; omega
  case critical_hits_eq => simp only [aggregate_stats, CombatantStats.empty]; omega
  case weapon_buffs_eq => simp only [aggregate_stats, CombatantStats.empty]; omega
  case total_damage_dealt_eq => simp only [aggregate_stats, CombatantStats.empty]; omega
  case hit_damage_eq => simp only [aggregate_stats, CombatantStats.empty]; omega
  case crit_damage_eq => simp only [aggregate_stats, CombatantStats.empty]; omega
  case weapon_buff_damage_eq => simp only [aggregate_stats, CombatantStats.empty]; omega
  case times_attacked_eq => simp only [aggregate_stats, CombatantStats.empty]; omega
  case total_damage_received_eq => simp only [aggregate_stats, CombatantStats.empty]; omega
  case total_damage_absorbed_eq => simp only [aggregate_stats, CombatantStats.empty]; omega
  case damage_by_type_dealt_eq => exact fun k => (look1_mergeInto [] _ ha1 k).trans (Nat.zero_add _)
  case hit_damage_by_type_eq => exact fun k => (look1_mergeInto [] _ ha2 k).trans (Nat.zero_add _)
  case crit_damage_by_type_eq => exact fun k => (look1_mergeInto [] _ ha3 k).trans (Nat.zero_add _)
  case weapon_buff_damage_by_type_eq => exact fun k => (look1_mergeInto [] _ ha4 k).trans (Nat.zero_add _)
  case damage_by_source_dealt_eq => exact fun k => (look1_mergeInto [] _ ha5 k).trans (Nat.zero_add _)
  case damage_by_target_dealt_eq => exact fun k => (look1_mergeInto [] _ ha6 k).trans (Nat.zero_add _)
  case damage_by_source_received_eq => exact fun k => (look1_mergeInto [] _ ha7 k).trans (Nat.zero_add _)
  case damage_by_attacker_received_eq => exact fun k => (look1_mergeInto [] _ ha8 k).trans (Nat.zero_add _)
  case absorbed_by_type_eq => exact fun k => (look1_mergeInto [] _ ha9 k).trans (Nat.zero_add _)
  case damage_by_source_and_type_dealt_eq => exact fun k1 k2 => (look2_merge2 [] _ ha10 k1 k2).trans (Nat.zero_add _)
  case damage_by_target_and_source_dealt_eq => exact fun k1 k2 => (look2_merge2 [] _ ha11 k1 k2).trans (Nat.zero_add _)
  case hit_damage_by_target_type_eq => exact fun k1 k2 => (look2_merge2 [] _ ha12 k1 k2).trans (Nat.zero_add _)
  case crit_damage_by_target_type_eq => exact fun k1 k2 => (look2_merge2 [] _ ha13 k1 k2).trans (Nat.zero_add _)
  case weapon_buff_damage_by_target_type_eq => exact fun k1 k2 => (look2_merge2 [] _ ha14 k1 k2).trans (Nat.zero_add _)
  case damage_by_source_and_type_received_eq => exact fun k1 k2 => (look2_merge2 [] _ ha15 k1 k2).trans (Nat.zero_add _)
  case damage_by_attacker_and_source_received_eq =>
    exact fun k1 k2 => (look2_merge2 [] _ ha16 k1 k2).trans (Nat.zero_add _)
  case damage_by_target_source_and_type_dealt_eq =>
    exact fun k1 k2 k3 => (look3_merge3 [] _ ha17 k1 k2 k3).trans (Nat.zero_add _)
  case first_action_time_eq =>
    show mergeFirstTime none a.first_action_time = a.first_action_time
    cases a.first_action_time <;> rfl
  case last_action_time_eq =>
    show mergeLastTime none a.last_action_time = a.last_action_time
    cases a.last_action_time <;> rfl

/-- Concrete CombatantStats records exercising the aggregation laws. -/
def statsA : CombatantStats :=
  { hits := 1, concealment_dodges := 2, damage_by_source_dealt := [("Alice", 5)],
    damage_by_type_received := [("Fire", 7)], first_action_time := some 3 }

def statsB : CombatantStats :=
  { misses := 1, damage_by_source_dealt := [("Alice", 2), ("Bob", 1)],
    damage_by_source_and_type_dealt := [("Alice", [("Fire", 2)])],
    last_action_time := some 9 }

def statsC : CombatantStats :=
  { damage_by_type_dealt := [("Fire", 4)], first_action_time := some 1 }

/-- C2 counterexample: aggregate_stats is not commutative over every field of
CombatantStats.  It never reads the source's concealment_dodges (or
damage_by_type_received), so combine(a, empty) and combine(empty, a) already
differ on concealment_dodges for a record a with concealment_dodges = 2: the
first keeps 2, the second keeps the empty record's 0. -/
theorem C2_claim_counterexample :
    ¬ StatsEquiv (aggregate_stats statsA CombatantStats.empty)
      (aggregate_stats CombatantStats.empty statsA) :=
  fun h => absurd h.concealment_dodges_eq (by decide)

/-- C2: amended monoid laws for aggregate_stats.  The spec's claim fails as
stated because aggregate_stats drops the source's concealment_dodges and
damage_by_type_received, so commutativity and the left identity fail on those
two fields.  What does hold, for records whose map fields have unique keys
(WFStats, intrinsic for the Rust HashMaps): associativity over every field,
the right identity combine(a, empty) = a as a plain record equality,
commutativity and the left identity over every field aggregate_stats folds,
and the two dropped fields always keep the target's value. -/
theorem C2_monoid_amended (a b c : CombatantStats)
    (ha : WFStats a) (hb : WFStats b) (hc : WFStats c) :
    StatsEquiv (aggregate_stats a (aggregate_stats b c))
      (aggregate_stats (aggregate_stats a b) c) ∧
    aggregate_stats a CombatantStats.empty = a ∧
    StatsEquivAgg (aggregate_stats a b) (aggregate_stats b a) ∧
    StatsEquivAgg (aggregate_stats CombatantStats.empty a) a ∧
    (aggregate_stats a b).concealment_dodges = a.concealment_dodges ∧
    (aggregate_stats a b).damage_by_type_received = a.damage_by_type_received :=
  ⟨aggregate_stats_assoc a b c hb hc, aggregate_stats_rid a,
   aggregate_stats_comm a b ha hb, aggregate_stats_lid a ha, rfl, rfl⟩

/-- Witness for C2_monoid_amended at concrete records, with the key-uniqueness
hypotheses discharged by evaluation. -/
theorem C2_monoid_amended_witness :
    StatsEquiv (aggregate_stats statsA (aggregate_stats statsB statsC))
      (aggregate_stats (aggregate_stats statsA statsB) statsC) ∧
    aggregate_stats statsA CombatantStats.empty = statsA ∧
    StatsEquivAgg (aggregate_stats statsA statsB) (aggregate_stats statsB statsA) ∧
    StatsEquivAgg (aggregate_stats CombatantStats.empty statsA) statsA ∧
    (aggregate_stats statsA statsB).concealment_dodges = statsA.concealment_dodges ∧
    (aggregate_stats statsA statsB).damage_by_type_received =
      statsA.damage_by_type_received :=
  C2_monoid_amended statsA statsB statsC (by decide) (by decide) (by decide)
